import Mathlib

/-!
# GUI state machine of the ZX Pico IF1 firmware (firmware-ui/gui/gui_fsm.c)

A shallow embedding of the status-display state machine: the transition table
`gui_fsm_map`, the entry-function `binding` table, the ten entry functions and
the table-driven engine that runs them.

Two compile-time constants come from headers that are not available
(`microdrive.h`, `cartridge.h`); they are parameters of the development:

* `N` stands for `NUM_MICRODRIVES`,
* `B` stands for `MICRODRIVE_BLOCK_LEN`.
-/

namespace GuiFsm

/-! ## Enumerations -/

/-- States named in gui_fsm.c: the sentinel `FSM_STATE_NONE` that terminates
both tables, and the ten GUI states. -/
inductive gui_fsm_state_t where
  | FSM_STATE_NONE
  | STATE_GUI_INIT
  | STATE_GUI_SHOW_STATUS
  | STATE_GUI_REQUESTING_STATUS
  | STATE_GUI_REQUESTING_STATUS_DONE
  | STATE_GUI_REQUESTING_DATA_TO_SAVE
  | STATE_GUI_DATA_SAVED
  | STATE_GUI_INSERTING_MDR
  | STATE_GUI_INSERTED_MDR
  | STATE_GUI_SELECTING_NEXT_MD
  | STATE_GUI_SELECTING_PREVIOUS_MD
  deriving DecidableEq, Repr

/-- Stimuli named in gui_fsm.c: the sentinel `FSM_STIMULUS_NONE`, the
auto-advance stimulus `FSM_STIMULUS_YES` and the eight external stimuli. -/
inductive gui_fsm_stimulus_t where
  | FSM_STIMULUS_NONE
  | FSM_STIMULUS_YES
  | ST_MDR_INSERTING
  | ST_MDR_INSERTED
  | ST_ROTATE_CCW
  | ST_ROTATE_CW
  | ST_REQUEST_STATUS
  | ST_REQUEST_STATUS_DONE
  | ST_REQUEST_DATA_TO_SAVE
  | ST_DATA_SAVED
  deriving DecidableEq, Repr

/-- Modelled from the spec: the status tag of a drive in the live data. The
header that declares it is not available; gui_fsm.c compares the tag with
these three values. -/
inductive live_status_t where
  | LIVE_STATUS_NO_CARTRIDGE
  | LIVE_STATUS_INSERTING
  | LIVE_STATUS_INSERTED
  deriving DecidableEq, Repr

open gui_fsm_state_t gui_fsm_stimulus_t live_status_t

/-! ## Data model -/

/-- Per-drive record of live_microdrive_data.h. `filename` is a `char*`
(`none` is NULL), `cartridge_data_length` a `uint32_t`. The `status` field is
read by gui_fsm.c (`currently_inserted[i].status`) and is added here from that
use and from the spec's data model. -/
structure microdrive_inserted_data_t where
  status : live_status_t
  filename : Option String
  cartridge_data_length : Nat
  write_protected : Bool
  deriving DecidableEq, Repr

/-- The live data snapshot: an array of `N` drive records, and the index of
the drive being saved to SD card (`microdrive_saving_to_sd`, read by
gui_fsm.c; `-1` when none). -/
structure live_microdrive_data_t (N : Nat) where
  currently_inserted : Fin N → microdrive_inserted_data_t
  microdrive_saving_to_sd : Int

/-- Modelled from the spec: the status projection `status_screen_t`, declared
in gui.h which is not available. The fields are those gui_fsm.c writes;
indices are integers, `num_blocks` is a block count. -/
structure status_screen_t (N : Nat) where
  selected : Int
  md_inserted : Fin N → Bool
  inserting : Bool
  filename : Option String
  num_blocks : Nat
  write_protected : Bool
  requesting_status : Bool
  requesting_data_from_microdrive : Int

/-- One row of the transition table. -/
structure fsm_map_t where
  state : gui_fsm_state_t
  stimulus : gui_fsm_stimulus_t
  dest_state : gui_fsm_state_t
  deriving DecidableEq, Repr

/-- Modelled from the spec: the engine instance `fsm_t` (fsm.h is not
available): the current state and the context pointer `fsm_data`, here the
live data snapshot it points to. -/
structure fsm_t (N : Nat) where
  current_state : gui_fsm_state_t
  fsm_data : live_microdrive_data_t N

/-- A configuration of the program: the engine instance, the file-level
global `status`, and a ghost history `entered` of the states the engine has
switched to (the history is not program state; it only lets theorems speak
about the states passed through). -/
structure gui_t (N : Nat) where
  fsm : fsm_t N
  status : status_screen_t N
  entered : List gui_fsm_state_t

/-- Ways a run of the model can fail to produce a configuration. -/
inductive fsm_error where
  | out_of_fuel
  | no_binding
  | index_out_of_bounds
  deriving DecidableEq, Repr

/-- Result of running an entry function or a dispatch. -/
abbrev fsm_result (N : Nat) := Except fsm_error (gui_t N)

/-- The engine call `generate_stimulus( fsm, stimulus )` as seen from an entry
function. -/
abbrev dispatch_fn (N : Nat) := gui_fsm_stimulus_t → gui_t N → fsm_result N

/-- An entry function: it receives the dispatcher it may call back. -/
abbrev entry_fn (N : Nat) := dispatch_fn N → gui_t N → fsm_result N

/-! ## Transition table (gui_fsm.c, `gui_fsm_map`) -/

/-- The transition table, row for row, sentinel row included. -/
def gui_fsm_map : List fsm_map_t :=
  [ ⟨STATE_GUI_INIT,                    FSM_STIMULUS_YES,        STATE_GUI_SHOW_STATUS⟩,
    ⟨STATE_GUI_SHOW_STATUS,             ST_MDR_INSERTING,        STATE_GUI_INSERTING_MDR⟩,
    ⟨STATE_GUI_SHOW_STATUS,             ST_MDR_INSERTED,         STATE_GUI_INSERTED_MDR⟩,
    ⟨STATE_GUI_INSERTING_MDR,           FSM_STIMULUS_YES,        STATE_GUI_SHOW_STATUS⟩,
    ⟨STATE_GUI_INSERTED_MDR,            FSM_STIMULUS_YES,        STATE_GUI_SHOW_STATUS⟩,
    ⟨STATE_GUI_SHOW_STATUS,             ST_ROTATE_CCW,           STATE_GUI_SELECTING_NEXT_MD⟩,
    ⟨STATE_GUI_SHOW_STATUS,             ST_ROTATE_CW,            STATE_GUI_SELECTING_PREVIOUS_MD⟩,
    ⟨STATE_GUI_SHOW_STATUS,             ST_REQUEST_STATUS,       STATE_GUI_REQUESTING_STATUS⟩,
    ⟨STATE_GUI_SHOW_STATUS,             ST_REQUEST_STATUS_DONE,  STATE_GUI_REQUESTING_STATUS_DONE⟩,
    ⟨STATE_GUI_REQUESTING_STATUS,       FSM_STIMULUS_YES,        STATE_GUI_SHOW_STATUS⟩,
    ⟨STATE_GUI_REQUESTING_STATUS_DONE,  FSM_STIMULUS_YES,        STATE_GUI_SHOW_STATUS⟩,
    ⟨STATE_GUI_SHOW_STATUS,             ST_REQUEST_DATA_TO_SAVE, STATE_GUI_REQUESTING_DATA_TO_SAVE⟩,
    ⟨STATE_GUI_SHOW_STATUS,             ST_DATA_SAVED,           STATE_GUI_DATA_SAVED⟩,
    ⟨STATE_GUI_REQUESTING_DATA_TO_SAVE, FSM_STIMULUS_YES,        STATE_GUI_SHOW_STATUS⟩,
    ⟨STATE_GUI_DATA_SAVED,              FSM_STIMULUS_YES,        STATE_GUI_SHOW_STATUS⟩,
    ⟨STATE_GUI_SELECTING_NEXT_MD,       FSM_STIMULUS_YES,        STATE_GUI_SHOW_STATUS⟩,
    ⟨STATE_GUI_SELECTING_PREVIOUS_MD,   FSM_STIMULUS_YES,        STATE_GUI_SHOW_STATUS⟩,
    ⟨FSM_STATE_NONE,                    FSM_STIMULUS_NONE,       FSM_STATE_NONE⟩ ]

/-- The accessor `query_gui_fsm_map`. -/
def query_gui_fsm_map : List fsm_map_t := gui_fsm_map

/-- The accessor `query_gui_fsm_initial_state`. -/
def query_gui_fsm_initial_state : gui_fsm_state_t := STATE_GUI_INIT

/-- Modelled from the spec: the engine's table lookup (fsm.c is not
available). A linear scan from the first row; the scan stops at the row whose
state is `FSM_STATE_NONE`; the first row matching both the state and the
stimulus gives the next state. -/
def fsm_map_lookup : List fsm_map_t → gui_fsm_state_t → gui_fsm_stimulus_t →
    Option gui_fsm_state_t
  | [], _, _ => none
  | row :: rest, s, x =>
    if row.state = FSM_STATE_NONE then none
    else if row.state = s ∧ row.stimulus = x then some row.dest_state
    else fsm_map_lookup rest s x

/-! ## Entry functions (gui_fsm.c) -/

/-- The subscript `a[i]` of an array of `N` elements by an integer index: the
element position when `0 ≤ i < N`, nothing otherwise (an out-of-bounds read in
the source). -/
def array_index (N : Nat) (i : Int) : Option (Fin N) :=
  if h : 0 ≤ i ∧ i < (N : Int) then some ⟨i.toNat, by omega⟩ else none

/-- Entry function `gui_sm_init`: selects drive 0, sets the save-request field to -1 and
injects `FSM_STIMULUS_YES`. -/
def gui_sm_init {N : Nat} (generate_stimulus : dispatch_fn N) (g : gui_t N) :
    fsm_result N :=
  let status := { g.status with selected := 0 }
  let status := { status with requesting_data_from_microdrive := -1 }
  generate_stimulus FSM_STIMULUS_YES { g with status := status }

/-- The `for` loop of `gui_sm_show_status`: for each drive index in turn,
`md_inserted[i] = (currently_inserted[i].status == LIVE_STATUS_INSERTED)`. -/
def md_inserted_loop {N : Nat} (live : live_microdrive_data_t N)
    (md_inserted : Fin N → Bool) : Fin N → Bool :=
  (List.finRange N).foldl
    (fun md i =>
      Function.update md i
        (decide ((live.currently_inserted i).status = LIVE_STATUS_INSERTED)))
    md_inserted

/-- Entry function `gui_sm_show_status`: rebuilds the status projection from the live data.
It does not inject a stimulus. The final `draw_status_screen( &status )` only
renders and is not modelled. Reading `currently_inserted[status.selected]`
with the index out of bounds is reported as an error. -/
def gui_sm_show_status {N : Nat} (B : Nat) (_generate_stimulus : dispatch_fn N)
    (g : gui_t N) : fsm_result N :=
  let live := g.fsm.fsm_data
  let status := { g.status with md_inserted := md_inserted_loop live g.status.md_inserted }
  match array_index N status.selected with
  | none => .error .index_out_of_bounds
  | some k =>
    let cur := live.currently_inserted k
    let status :=
      if cur.status = LIVE_STATUS_NO_CARTRIDGE then
        { status with
            filename := none, num_blocks := 0,
            write_protected := false, inserting := false }
      else if cur.status = LIVE_STATUS_INSERTING then
        { status with inserting := true }
      else if cur.status = LIVE_STATUS_INSERTED then
        { status with
            filename := cur.filename,
            num_blocks := cur.cartridge_data_length / B,
            write_protected := cur.write_protected,
            inserting := false }
      else status
    .ok { g with status := status }

/-- Entry function `gui_sm_inserting_mdr`: only injects `FSM_STIMULUS_YES`. -/
def gui_sm_inserting_mdr {N : Nat} (generate_stimulus : dispatch_fn N) (g : gui_t N) :
    fsm_result N :=
  generate_stimulus FSM_STIMULUS_YES g

/-- Entry function `gui_sm_inserted_mdr`: only injects `FSM_STIMULUS_YES`. -/
def gui_sm_inserted_mdr {N : Nat} (generate_stimulus : dispatch_fn N) (g : gui_t N) :
    fsm_result N :=
  generate_stimulus FSM_STIMULUS_YES g

/-- Entry function `gui_sm_selecting_next_md`:
`if( ++status.selected == NUM_MICRODRIVES ) status.selected = 0;` -/
def gui_sm_selecting_next_md {N : Nat} (generate_stimulus : dispatch_fn N) (g : gui_t N) :
    fsm_result N :=
  let incremented := g.status.selected + 1
  let selected := if incremented = (N : Int) then 0 else incremented
  generate_stimulus FSM_STIMULUS_YES { g with status := { g.status with selected := selected } }

/-- Entry function `gui_sm_selecting_previous_md`:
`if( status.selected-- == 0 ) status.selected = NUM_MICRODRIVES-1;` -/
def gui_sm_selecting_previous_md {N : Nat} (generate_stimulus : dispatch_fn N) (g : gui_t N) :
    fsm_result N :=
  let before := g.status.selected
  let decremented := before - 1
  let selected := if before = 0 then (N : Int) - 1 else decremented
  generate_stimulus FSM_STIMULUS_YES { g with status := { g.status with selected := selected } }

/-- Entry function `gui_sm_requesting_status`: sets the flag, injects `FSM_STIMULUS_YES`. -/
def gui_sm_requesting_status {N : Nat} (generate_stimulus : dispatch_fn N) (g : gui_t N) :
    fsm_result N :=
  generate_stimulus FSM_STIMULUS_YES
    { g with status := { g.status with requesting_status := true } }

/-- Entry function `gui_sm_requesting_status_done`: clears the flag, injects
`FSM_STIMULUS_YES`. -/
def gui_sm_requesting_status_done {N : Nat} (generate_stimulus : dispatch_fn N) (g : gui_t N) :
    fsm_result N :=
  generate_stimulus FSM_STIMULUS_YES
    { g with status := { g.status with requesting_status := false } }

/-- Entry function `gui_sm_requesting_data_to_save`: copies `microdrive_saving_to_sd` from
the live data into the save-request field, injects `FSM_STIMULUS_YES`. -/
def gui_sm_requesting_data_to_save {N : Nat} (generate_stimulus : dispatch_fn N) (g : gui_t N) :
    fsm_result N :=
  let live := g.fsm.fsm_data
  generate_stimulus FSM_STIMULUS_YES
    { g with status :=
        { g.status with requesting_data_from_microdrive := live.microdrive_saving_to_sd } }

/-- Entry function `gui_sm_data_saved`: copies the same field again, injects
`FSM_STIMULUS_YES`. -/
def gui_sm_data_saved {N : Nat} (generate_stimulus : dispatch_fn N) (g : gui_t N) :
    fsm_result N :=
  let live := g.fsm.fsm_data
  generate_stimulus FSM_STIMULUS_YES
    { g with status :=
        { g.status with requesting_data_from_microdrive := live.microdrive_saving_to_sd } }

/-! ## Binding table (gui_fsm.c, `binding`) -/

/-- One row of the state to entry function binding table; `none` is the NULL
function pointer. -/
structure fsm_state_entry_fn_binding_t (N : Nat) where
  state : gui_fsm_state_t
  entry_fn : Option (entry_fn N)

/-- The binding table, row for row, sentinel row included. -/
def binding (N B : Nat) : List (fsm_state_entry_fn_binding_t N) :=
  [ ⟨STATE_GUI_INIT,                    some gui_sm_init⟩,
    ⟨STATE_GUI_SHOW_STATUS,             some (gui_sm_show_status B)⟩,
    ⟨STATE_GUI_REQUESTING_STATUS,       some gui_sm_requesting_status⟩,
    ⟨STATE_GUI_REQUESTING_STATUS_DONE,  some gui_sm_requesting_status_done⟩,
    ⟨STATE_GUI_REQUESTING_DATA_TO_SAVE, some gui_sm_requesting_data_to_save⟩,
    ⟨STATE_GUI_DATA_SAVED,              some gui_sm_data_saved⟩,
    ⟨STATE_GUI_INSERTING_MDR,           some gui_sm_inserting_mdr⟩,
    ⟨STATE_GUI_INSERTED_MDR,            some gui_sm_inserted_mdr⟩,
    ⟨STATE_GUI_SELECTING_NEXT_MD,       some gui_sm_selecting_next_md⟩,
    ⟨STATE_GUI_SELECTING_PREVIOUS_MD,   some gui_sm_selecting_previous_md⟩,
    ⟨FSM_STATE_NONE,                    none⟩ ]

/-- The accessor `query_gui_fsm_binding`. -/
def query_gui_fsm_binding (N B : Nat) : List (fsm_state_entry_fn_binding_t N) := binding N B

/-! ## Engine -/

/-- Modelled from the spec: the engine's binding lookup (fsm.c is not
available). A linear scan that stops at the `FSM_STATE_NONE` row; the first
row for the state gives its entry function. -/
def fsm_binding_lookup {N : Nat} : List (fsm_state_entry_fn_binding_t N) → gui_fsm_state_t →
    Option (entry_fn N)
  | [], _ => none
  | row :: rest, s =>
    if row.state = FSM_STATE_NONE then none
    else if row.state = s then row.entry_fn
    else fsm_binding_lookup rest s

/-- Modelled from the spec: the engine's dispatch `generate_stimulus` (fsm.c
is not available). It looks up (current state, stimulus) in the transition
table; on a match it sets the current state to the mapped state and then
calls that state's entry function, which may dispatch again; on no match it
returns without effect. The first argument bounds the depth of nested
dispatches. -/
def generate_stimulus (N B : Nat) : Nat → dispatch_fn N
  | 0, _, _ => .error .out_of_fuel
  | fuel + 1, stimulus, g =>
    match fsm_map_lookup query_gui_fsm_map g.fsm.current_state stimulus with
    | none => .ok g
    | some dest =>
      match fsm_binding_lookup (query_gui_fsm_binding N B) dest with
      | none => .error .no_binding
      | some entry =>
        entry (generate_stimulus N B fuel)
          { g with
              fsm := { g.fsm with current_state := dest },
              entered := g.entered ++ [dest] }

/-- Modelled from the spec: engine initialisation (fsm.c is not available).
It sets the current state to the initial state, stores the context, and runs
the initial state's entry function. For the GUI that function is
`gui_sm_init`, bound to `STATE_GUI_INIT` in `binding`; no row of `gui_fsm_map`
leads to `STATE_GUI_INIT`, so this is the only way it runs, and it injects the
auto-advance stimulus itself. The second argument bounds the depth of nested
dispatches. -/
def fsm_init (N B : Nat) (fuel : Nat) (initial_state : gui_fsm_state_t)
    (fsm_data : live_microdrive_data_t N) (status : status_screen_t N) : fsm_result N :=
  match fsm_binding_lookup (query_gui_fsm_binding N B) initial_state with
  | none => .error .no_binding
  | some entry =>
    entry (generate_stimulus N B fuel)
      { fsm := { current_state := initial_state, fsm_data := fsm_data },
        status := status,
        entered := [initial_state] }


/-! ## Reachable configurations -/

/-- Configurations at rest that are reachable from boot: the result of
initialising the engine in the initial state (from any snapshot and any prior
content of `status`), and the result of any dispatch from a reachable
configuration, the snapshot having changed arbitrarily before the dispatch. -/
inductive Reachable (N B : Nat) : gui_t N → Prop where
  | boot (fuel : Nat) (live : live_microdrive_data_t N) (status : status_screen_t N)
      (g : gui_t N) :
      fsm_init N B fuel query_gui_fsm_initial_state live status = .ok g → Reachable N B g
  | dispatch (fuel : Nat) (stimulus : gui_fsm_stimulus_t) (live : live_microdrive_data_t N)
      (g g' : gui_t N) :
      Reachable N B g →
      generate_stimulus N B fuel stimulus
        { g with fsm := { g.fsm with fsm_data := live } } = .ok g' →
      Reachable N B g'

/-! ## Concrete inputs used by witnesses and counterexamples -/

/-- A snapshot of two drives: drive 0 holds a cartridge of 1000 bytes, drive 1
is being inserted. -/
def sample_live : live_microdrive_data_t 2 where
  currently_inserted := fun i =>
    if i.val = 0 then
      { status := LIVE_STATUS_INSERTED, filename := some "games.mdr",
        cartridge_data_length := 1000, write_protected := true }
    else
      { status := LIVE_STATUS_INSERTING, filename := none,
        cartridge_data_length := 0, write_protected := false }
  microdrive_saving_to_sd := -1

/-- A snapshot of two drives, both empty. -/
def sample_live_empty : live_microdrive_data_t 2 where
  currently_inserted := fun _ =>
    { status := LIVE_STATUS_NO_CARTRIDGE, filename := none,
      cartridge_data_length := 0, write_protected := false }
  microdrive_saving_to_sd := -1

/-- A status projection selecting drive 0, with leftovers in its detail
fields. -/
def sample_status : status_screen_t 2 where
  selected := 0
  md_inserted := fun _ => false
  inserting := true
  filename := some "old.mdr"
  num_blocks := 7
  write_protected := true
  requesting_status := false
  requesting_data_from_microdrive := -1

/-- The configuration at rest in `STATE_GUI_SHOW_STATUS` over `sample_live`
and `sample_status`. -/
def sample_gui : gui_t 2 where
  fsm := { current_state := STATE_GUI_SHOW_STATUS, fsm_data := sample_live }
  status := sample_status
  entered := []

/-- The configuration after boot over `sample_live`, starting from
`sample_status`. -/
def sample_booted : gui_t 2 :=
  match fsm_init 2 543 1 query_gui_fsm_initial_state sample_live sample_status with
  | .ok g => g
  | .error _ => sample_gui

/-- A status projection selecting drive 1, with detail fields left over from
a cartridge shown earlier. -/
def stale_status_a : status_screen_t 2 where
  selected := 1
  md_inserted := fun _ => false
  inserting := false
  filename := some "old.mdr"
  num_blocks := 7
  write_protected := true
  requesting_status := false
  requesting_data_from_microdrive := -1

/-- A status projection selecting drive 1, with cleared detail fields. It
agrees with `stale_status_a` on the selected index, the requesting-status flag
and the save-request field. -/
def stale_status_b : status_screen_t 2 where
  selected := 1
  md_inserted := fun _ => false
  inserting := false
  filename := none
  num_blocks := 0
  write_protected := false
  requesting_status := false
  requesting_data_from_microdrive := -1

/-- The configuration after boot over `sample_live` followed by one dispatch
of `ST_ROTATE_CCW` over the same snapshot. -/
def sample_rotated : gui_t 2 :=
  match generate_stimulus 2 543 2 ST_ROTATE_CCW sample_booted with
  | .ok g => g
  | .error _ => sample_gui

/-- A snapshot of two drives whose saving index is drive 1. -/
def sample_live_saving : live_microdrive_data_t 2 where
  currently_inserted := sample_live.currently_inserted
  microdrive_saving_to_sd := 1

/-! ## Vocabulary of the later statements -/

/-- The rows of a transition table that the scan can reach: those before the
first row whose state is `FSM_STATE_NONE`. -/
def fsm_map_rows : List fsm_map_t → List fsm_map_t
  | [] => []
  | row :: rest => if row.state = FSM_STATE_NONE then [] else row :: fsm_map_rows rest

/-- The sentinel row that ends `gui_fsm_map`. -/
def fsm_map_sentinel : fsm_map_t := ⟨FSM_STATE_NONE, FSM_STIMULUS_NONE, FSM_STATE_NONE⟩

/-- States reachable from the initial state by following rows of
`gui_fsm_map`. -/
inductive map_reachable : gui_fsm_state_t → Prop where
  | initial : map_reachable query_gui_fsm_initial_state
  | follow (row : fsm_map_t) :
      row ∈ fsm_map_rows gui_fsm_map → map_reachable row.state →
      map_reachable row.dest_state

/-- The configuration an entry function hands to the dispatcher: the entry
function is run with a dispatcher that returns at once. -/
def run_entry {N : Nat} (entry : entry_fn N) (g : gui_t N) : gui_t N :=
  match entry (fun _ handed => .ok handed) g with
  | .ok handed => handed
  | .error _ => g

/-- What the detail fields of `g` are after `gui_sm_show_status` has rebuilt
the projection from `live`, `prior` being the projection before the boot or
dispatch: cleared when the selected drive has no cartridge, read from the
selected entry when it is inserted, those of `prior` while it is being
inserted. -/
def detail_fields_after {N : Nat} (B : Nat) (live : live_microdrive_data_t N)
    (prior : status_screen_t N) (g : gui_t N) : Prop :=
  ∃ k : Fin N, g.status.selected = (k.val : Int) ∧
    ((live.currently_inserted k).status = LIVE_STATUS_NO_CARTRIDGE →
      g.status.filename = none ∧ g.status.num_blocks = 0 ∧
        g.status.write_protected = false) ∧
    ((live.currently_inserted k).status = LIVE_STATUS_INSERTED →
      g.status.filename = (live.currently_inserted k).filename ∧
        g.status.num_blocks = (live.currently_inserted k).cartridge_data_length / B ∧
        g.status.write_protected = (live.currently_inserted k).write_protected) ∧
    ((live.currently_inserted k).status = LIVE_STATUS_INSERTING →
      g.status.filename = prior.filename ∧ g.status.num_blocks = prior.num_blocks ∧
        g.status.write_protected = prior.write_protected)

/-! ## Basic facts -/

theorem array_index_of_fin {N : Nat} (k : Fin N) : array_index N (k.val : Int) = some k := by
  unfold array_index
  have h : 0 ≤ (k.val : Int) ∧ (k.val : Int) < (N : Int) := by
    have := k.isLt
    omega
  rw [dif_pos h]
  simp

theorem array_index_in_range {N : Nat} (i : Int) (h : 0 ≤ i ∧ i < (N : Int)) :
    ∃ k : Fin N, array_index N i = some k ∧ (k.val : Int) = i := by
  unfold array_index
  rw [dif_pos h]
  exact ⟨_, rfl, by simp [Int.toNat_of_nonneg h.1]⟩

theorem foldl_update_apply {α : Type} [DecidableEq α] (f : α → Bool) :
    ∀ (l : List α) (md : α → Bool) (j : α),
      (l.foldl (fun m i => Function.update m i (f i)) md) j = if j ∈ l then f j else md j
  | [], md, j => by simp
  | a :: l, md, j => by
    rw [List.foldl_cons, foldl_update_apply f l]
    by_cases hjl : j ∈ l
    · simp [hjl]
    · by_cases hja : j = a
      · subst hja
        simp [hjl]
      · simp [hjl, hja, Function.update_noteq hja]

/-- After the loop every flag is the comparison of that drive's status with
`LIVE_STATUS_INSERTED`, whatever the flags were before. -/
theorem md_inserted_loop_eq {N : Nat} (live : live_microdrive_data_t N)
    (md : Fin N → Bool) :
    md_inserted_loop live md =
      fun i => decide ((live.currently_inserted i).status = LIVE_STATUS_INSERTED) := by
  funext j
  unfold md_inserted_loop
  rw [foldl_update_apply (fun i =>
    decide ((live.currently_inserted i).status = LIVE_STATUS_INSERTED))]
  simp [List.mem_finRange]


/-- Closed form of `gui_sm_show_status` when the selected index is the
position `k` of the array. -/
theorem gui_sm_show_status_eq {N : Nat} (B : Nat) (gen : dispatch_fn N) (g : gui_t N)
    (k : Fin N) (hk : g.status.selected = (k.val : Int)) :
    gui_sm_show_status B gen g =
      .ok { g with status :=
        if (g.fsm.fsm_data.currently_inserted k).status = LIVE_STATUS_NO_CARTRIDGE then
          { g.status with
              md_inserted := fun i =>
                decide ((g.fsm.fsm_data.currently_inserted i).status = LIVE_STATUS_INSERTED),
              filename := none, num_blocks := 0,
              write_protected := false, inserting := false }
        else if (g.fsm.fsm_data.currently_inserted k).status = LIVE_STATUS_INSERTING then
          { g.status with
              md_inserted := fun i =>
                decide ((g.fsm.fsm_data.currently_inserted i).status = LIVE_STATUS_INSERTED),
              inserting := true }
        else
          { g.status with
              md_inserted := fun i =>
                decide ((g.fsm.fsm_data.currently_inserted i).status = LIVE_STATUS_INSERTED),
              filename := (g.fsm.fsm_data.currently_inserted k).filename,
              num_blocks := (g.fsm.fsm_data.currently_inserted k).cartridge_data_length / B,
              write_protected := (g.fsm.fsm_data.currently_inserted k).write_protected,
              inserting := false } } := by
  unfold gui_sm_show_status
  simp only [hk, array_index_of_fin, md_inserted_loop_eq]
  cases hst : (g.fsm.fsm_data.currently_inserted k).status <;> simp

/-- With the selected index in range `gui_sm_show_status` returns a
configuration that differs from the given one in `status` only, and keeps the
selected index, the requesting-status flag and the save-request field. -/
theorem gui_sm_show_status_ok {N : Nat} (B : Nat) (gen : dispatch_fn N) (g : gui_t N)
    (h : 0 ≤ g.status.selected ∧ g.status.selected < (N : Int)) :
    ∃ st : status_screen_t N,
      gui_sm_show_status B gen g = .ok { g with status := st } ∧
      st.selected = g.status.selected ∧
      st.requesting_status = g.status.requesting_status ∧
      st.requesting_data_from_microdrive = g.status.requesting_data_from_microdrive := by
  obtain ⟨k, -, hk⟩ := array_index_in_range g.status.selected h
  rw [gui_sm_show_status_eq B gen g k hk.symm]
  refine ⟨_, rfl, ?_, ?_, ?_⟩ <;>
    cases (g.fsm.fsm_data.currently_inserted k).status <;> simp

theorem binding_lookup_init (N B : Nat) :
    fsm_binding_lookup (query_gui_fsm_binding N B) STATE_GUI_INIT = some gui_sm_init := by
  simp [query_gui_fsm_binding, binding, fsm_binding_lookup]

theorem binding_lookup_show_status (N B : Nat) :
    fsm_binding_lookup (query_gui_fsm_binding N B) STATE_GUI_SHOW_STATUS =
      some (gui_sm_show_status B) := by
  simp [query_gui_fsm_binding, binding, fsm_binding_lookup]

/-- The auto-advance stimulus dispatched in `STATE_GUI_INIT` or in a transient
state switches to `STATE_GUI_SHOW_STATUS` and runs `gui_sm_show_status`. -/
theorem generate_stimulus_yes {N : Nat} (B fuel : Nat) (s : gui_fsm_state_t)
    (live : live_microdrive_data_t N) (st : status_screen_t N)
    (e : List gui_fsm_state_t)
    (hs : s ≠ FSM_STATE_NONE ∧ s ≠ STATE_GUI_SHOW_STATUS) :
    generate_stimulus N B (fuel + 1) FSM_STIMULUS_YES ⟨⟨s, live⟩, st, e⟩ =
      gui_sm_show_status B (generate_stimulus N B fuel)
        ⟨⟨STATE_GUI_SHOW_STATUS, live⟩, st, e ++ [STATE_GUI_SHOW_STATUS]⟩ := by
  obtain ⟨h1, h2⟩ := hs
  cases s <;>
    first
    | exact absurd rfl h1
    | exact absurd rfl h2
    | simp [generate_stimulus, query_gui_fsm_map, gui_fsm_map, fsm_map_lookup,
        query_gui_fsm_binding, binding, fsm_binding_lookup]


/-- An external stimulus dispatched at rest runs the transient state's entry
function and then `gui_sm_show_status`, and returns. -/
theorem generate_stimulus_external_ok {N : Nat} (B fuel : Nat)
    (live : live_microdrive_data_t N) (status : status_screen_t N)
    (entered : List gui_fsm_state_t) (x : gui_fsm_stimulus_t) (t : gui_fsm_state_t)
    (hsel : 0 ≤ status.selected ∧ status.selected < (N : Int))
    (hx : (x, t) ∈
      [ (ST_MDR_INSERTING, STATE_GUI_INSERTING_MDR),
        (ST_MDR_INSERTED, STATE_GUI_INSERTED_MDR),
        (ST_ROTATE_CCW, STATE_GUI_SELECTING_NEXT_MD),
        (ST_ROTATE_CW, STATE_GUI_SELECTING_PREVIOUS_MD),
        (ST_REQUEST_STATUS, STATE_GUI_REQUESTING_STATUS),
        (ST_REQUEST_STATUS_DONE, STATE_GUI_REQUESTING_STATUS_DONE),
        (ST_REQUEST_DATA_TO_SAVE, STATE_GUI_REQUESTING_DATA_TO_SAVE),
        (ST_DATA_SAVED, STATE_GUI_DATA_SAVED) ]) :
    ∃ g' : gui_t N,
      generate_stimulus N B (fuel + 2) x
        ⟨⟨STATE_GUI_SHOW_STATUS, live⟩, status, entered⟩ = .ok g' ∧
      g'.entered = entered ++ [t, STATE_GUI_SHOW_STATUS] ∧
      g'.fsm.current_state = STATE_GUI_SHOW_STATUS := by
  simp only [List.mem_cons, List.mem_singleton, List.not_mem_nil, or_false,
    Prod.mk.injEq] at hx
  have hss : ∀ (f : Nat) (st : status_screen_t N) (e : List gui_fsm_state_t),
      (0 ≤ st.selected ∧ st.selected < (N : Int)) →
      ∃ g' : gui_t N,
        gui_sm_show_status B (generate_stimulus N B f)
          ⟨⟨STATE_GUI_SHOW_STATUS, live⟩, st, e⟩ = .ok g' ∧
        g'.entered = e ∧ g'.fsm.current_state = STATE_GUI_SHOW_STATUS := by
    intro f st e hr
    obtain ⟨st', h, -⟩ := gui_sm_show_status_ok B (generate_stimulus N B f)
      ⟨⟨STATE_GUI_SHOW_STATUS, live⟩, st, e⟩ hr
    exact ⟨_, h, rfl, rfl⟩
  have key : ∀ f : Nat, ∃ g' : gui_t N,
      generate_stimulus N B (f + 1 + 1) x
        ⟨⟨STATE_GUI_SHOW_STATUS, live⟩, status, entered⟩ = .ok g' ∧
      g'.entered = entered ++ [t, STATE_GUI_SHOW_STATUS] ∧
      g'.fsm.current_state = STATE_GUI_SHOW_STATUS := by
    intro f
    generalize hf : f + 1 = f1
    rcases hx with hx | hx | hx | hx | hx | hx | hx | hx
    all_goals
      obtain ⟨hx1, hx2⟩ := hx
      subst hx1 hx2
    all_goals
      simp only [generate_stimulus, query_gui_fsm_map, gui_fsm_map, fsm_map_lookup,
        query_gui_fsm_binding, binding, fsm_binding_lookup, gui_sm_inserting_mdr,
        gui_sm_inserted_mdr, gui_sm_selecting_next_md, gui_sm_selecting_previous_md,
        gui_sm_requesting_status, gui_sm_requesting_status_done,
        gui_sm_requesting_data_to_save, gui_sm_data_saved]
      simp only [reduceCtorEq, and_self, and_true, and_false, if_true, if_false]
      subst hf
      simp only [gui_sm_inserting_mdr, gui_sm_inserted_mdr, gui_sm_selecting_next_md,
        gui_sm_selecting_previous_md, gui_sm_requesting_status,
        gui_sm_requesting_status_done, gui_sm_requesting_data_to_save, gui_sm_data_saved]
      rw [generate_stimulus_yes B f _ _ _ _ (by decide)]
    all_goals
      refine (hss f _ _ ?_).imp (fun g' h => ⟨h.1, ?_, h.2.2⟩)
    all_goals first
      | exact hsel
      | (rw [h.2.1]; simp)
      | (dsimp only; split <;> omega)
  exact key fuel


/-- Initialisation in `STATE_GUI_INIT` runs `gui_sm_init` and then
`gui_sm_show_status`, and returns. -/
theorem fsm_init_ok {N : Nat} (B fuel : Nat) (hN : 0 < N)
    (live : live_microdrive_data_t N) (status : status_screen_t N) :
    query_gui_fsm_initial_state = STATE_GUI_INIT ∧
    ∃ g : gui_t N,
      fsm_init N B (fuel + 1) query_gui_fsm_initial_state live status = .ok g ∧
      g.fsm.current_state = STATE_GUI_SHOW_STATUS ∧
      g.status.selected = 0 ∧
      g.status.requesting_data_from_microdrive = -1 ∧
      g.entered = [STATE_GUI_INIT, STATE_GUI_SHOW_STATUS] := by
  refine ⟨rfl, ?_⟩
  unfold fsm_init
  rw [show query_gui_fsm_initial_state = STATE_GUI_INIT from rfl, binding_lookup_init]
  simp only [gui_sm_init]
  rw [generate_stimulus_yes B fuel _ _ _ _ (by decide)]
  have hr : (0 : Int) ≤ 0 ∧ (0 : Int) < (N : Int) := ⟨le_refl 0, by omega⟩
  obtain ⟨st, hst, h1, -, h3⟩ := gui_sm_show_status_ok B (generate_stimulus N B fuel)
    ⟨⟨STATE_GUI_SHOW_STATUS, live⟩,
      { status with selected := 0, requesting_data_from_microdrive := -1 },
      [STATE_GUI_INIT] ++ [STATE_GUI_SHOW_STATUS]⟩ hr
  exact ⟨_, hst, rfl, h1, h3, rfl⟩


/-- When `gui_sm_show_status` returns, the selected index was in range, and
the configuration differs from the given one in `status` only, with the same
selected index. -/
theorem gui_sm_show_status_inv {N : Nat} (B : Nat) (gen : dispatch_fn N) (g g' : gui_t N)
    (h : gui_sm_show_status B gen g = .ok g') :
    (0 ≤ g.status.selected ∧ g.status.selected < (N : Int)) ∧
    g'.fsm = g.fsm ∧ g'.entered = g.entered ∧ g'.status.selected = g.status.selected := by
  by_cases hr : 0 ≤ g.status.selected ∧ g.status.selected < (N : Int)
  · obtain ⟨st, hst, hsel, -⟩ := gui_sm_show_status_ok B gen g hr
    rw [hst] at h
    injection h with h
    subst h
    exact ⟨hr, rfl, rfl, hsel⟩
  · exfalso
    have hnone : array_index N g.status.selected = none := by
      unfold array_index
      rw [dif_neg hr]
    unfold gui_sm_show_status at h
    simp only [hnone] at h
    cases h

/-- A dispatch at rest that returns leaves the engine at rest with the
selected index in range. -/
theorem generate_stimulus_preserves {N : Nat} (B fuel : Nat) (x : gui_fsm_stimulus_t)
    (g g' : gui_t N)
    (hs : g.fsm.current_state = STATE_GUI_SHOW_STATUS)
    (hr : 0 ≤ g.status.selected ∧ g.status.selected < (N : Int))
    (h : generate_stimulus N B fuel x g = .ok g') :
    g'.fsm.current_state = STATE_GUI_SHOW_STATUS ∧
    (0 ≤ g'.status.selected ∧ g'.status.selected < (N : Int)) := by
  obtain ⟨⟨s, live⟩, st, e⟩ := g
  simp only at hs hr
  subst hs
  cases fuel with
  | zero => simp [generate_stimulus] at h
  | succ f =>
    cases f with
    | zero =>
      cases x <;>
        simp [generate_stimulus, query_gui_fsm_map, gui_fsm_map, fsm_map_lookup,
          query_gui_fsm_binding, binding, fsm_binding_lookup, gui_sm_inserting_mdr,
          gui_sm_inserted_mdr, gui_sm_selecting_next_md, gui_sm_selecting_previous_md,
          gui_sm_requesting_status, gui_sm_requesting_status_done,
          gui_sm_requesting_data_to_save, gui_sm_data_saved] at h <;>
        (subst h; exact ⟨rfl, hr⟩)
    | succ f =>
      generalize hf : f + 1 = f1 at h
      cases x <;>
        simp only [generate_stimulus, query_gui_fsm_map, gui_fsm_map, fsm_map_lookup,
          query_gui_fsm_binding, binding, fsm_binding_lookup, gui_sm_inserting_mdr,
          gui_sm_inserted_mdr, gui_sm_selecting_next_md, gui_sm_selecting_previous_md,
          gui_sm_requesting_status, gui_sm_requesting_status_done,
          gui_sm_requesting_data_to_save, gui_sm_data_saved, reduceCtorEq, and_self,
          and_true, and_false, if_true, if_false] at h
      all_goals first
        | (injection h with h
           subst h
           exact ⟨rfl, hr⟩)
        | (subst hf
           rw [generate_stimulus_yes B f _ _ _ _ (by decide)] at h
           obtain ⟨hin, hfsm, -, hsel⟩ := gui_sm_show_status_inv _ _ _ _ h
           exact ⟨by rw [hfsm], by rw [hsel]; exact hin⟩)

/-! ## The transition table and table misses -/

/-- C1. Lookup in `gui_fsm_map` is defined for exactly seventeen (state,
stimulus) pairs and returns the listed target for each; every other pair has
no entry. The spec's rotate-forward is the stimulus that the table maps to
`STATE_GUI_SELECTING_NEXT_MD` (`ST_ROTATE_CCW`), its rotate-backward the one
mapped to `STATE_GUI_SELECTING_PREVIOUS_MD` (`ST_ROTATE_CW`). -/
theorem gui_fsm_map_lookup_exact :
    fsm_map_lookup gui_fsm_map STATE_GUI_INIT FSM_STIMULUS_YES
      = some STATE_GUI_SHOW_STATUS ∧
    fsm_map_lookup gui_fsm_map STATE_GUI_SHOW_STATUS ST_MDR_INSERTING
      = some STATE_GUI_INSERTING_MDR ∧
    fsm_map_lookup gui_fsm_map STATE_GUI_SHOW_STATUS ST_MDR_INSERTED
      = some STATE_GUI_INSERTED_MDR ∧
    fsm_map_lookup gui_fsm_map STATE_GUI_SHOW_STATUS ST_ROTATE_CCW
      = some STATE_GUI_SELECTING_NEXT_MD ∧
    fsm_map_lookup gui_fsm_map STATE_GUI_SHOW_STATUS ST_ROTATE_CW
      = some STATE_GUI_SELECTING_PREVIOUS_MD ∧
    fsm_map_lookup gui_fsm_map STATE_GUI_SHOW_STATUS ST_REQUEST_STATUS
      = some STATE_GUI_REQUESTING_STATUS ∧
    fsm_map_lookup gui_fsm_map STATE_GUI_SHOW_STATUS ST_REQUEST_STATUS_DONE
      = some STATE_GUI_REQUESTING_STATUS_DONE ∧
    fsm_map_lookup gui_fsm_map STATE_GUI_SHOW_STATUS ST_REQUEST_DATA_TO_SAVE
      = some STATE_GUI_REQUESTING_DATA_TO_SAVE ∧
    fsm_map_lookup gui_fsm_map STATE_GUI_SHOW_STATUS ST_DATA_SAVED
      = some STATE_GUI_DATA_SAVED ∧
    fsm_map_lookup gui_fsm_map STATE_GUI_INSERTING_MDR FSM_STIMULUS_YES
      = some STATE_GUI_SHOW_STATUS ∧
    fsm_map_lookup gui_fsm_map STATE_GUI_INSERTED_MDR FSM_STIMULUS_YES
      = some STATE_GUI_SHOW_STATUS ∧
    fsm_map_lookup gui_fsm_map STATE_GUI_SELECTING_NEXT_MD FSM_STIMULUS_YES
      = some STATE_GUI_SHOW_STATUS ∧
    fsm_map_lookup gui_fsm_map STATE_GUI_SELECTING_PREVIOUS_MD FSM_STIMULUS_YES
      = some STATE_GUI_SHOW_STATUS ∧
    fsm_map_lookup gui_fsm_map STATE_GUI_REQUESTING_STATUS FSM_STIMULUS_YES
      = some STATE_GUI_SHOW_STATUS ∧
    fsm_map_lookup gui_fsm_map STATE_GUI_REQUESTING_STATUS_DONE FSM_STIMULUS_YES
      = some STATE_GUI_SHOW_STATUS ∧
    fsm_map_lookup gui_fsm_map STATE_GUI_REQUESTING_DATA_TO_SAVE FSM_STIMULUS_YES
      = some STATE_GUI_SHOW_STATUS ∧
    fsm_map_lookup gui_fsm_map STATE_GUI_DATA_SAVED FSM_STIMULUS_YES
      = some STATE_GUI_SHOW_STATUS ∧
    ∀ (s : gui_fsm_state_t) (x : gui_fsm_stimulus_t),
      fsm_map_lookup gui_fsm_map s x = none ∨
      (s, x) ∈
        [ (STATE_GUI_INIT, FSM_STIMULUS_YES),
          (STATE_GUI_SHOW_STATUS, ST_MDR_INSERTING),
          (STATE_GUI_SHOW_STATUS, ST_MDR_INSERTED),
          (STATE_GUI_SHOW_STATUS, ST_ROTATE_CCW),
          (STATE_GUI_SHOW_STATUS, ST_ROTATE_CW),
          (STATE_GUI_SHOW_STATUS, ST_REQUEST_STATUS),
          (STATE_GUI_SHOW_STATUS, ST_REQUEST_STATUS_DONE),
          (STATE_GUI_SHOW_STATUS, ST_REQUEST_DATA_TO_SAVE),
          (STATE_GUI_SHOW_STATUS, ST_DATA_SAVED),
          (STATE_GUI_INSERTING_MDR, FSM_STIMULUS_YES),
          (STATE_GUI_INSERTED_MDR, FSM_STIMULUS_YES),
          (STATE_GUI_SELECTING_NEXT_MD, FSM_STIMULUS_YES),
          (STATE_GUI_SELECTING_PREVIOUS_MD, FSM_STIMULUS_YES),
          (STATE_GUI_REQUESTING_STATUS, FSM_STIMULUS_YES),
          (STATE_GUI_REQUESTING_STATUS_DONE, FSM_STIMULUS_YES),
          (STATE_GUI_REQUESTING_DATA_TO_SAVE, FSM_STIMULUS_YES),
          (STATE_GUI_DATA_SAVED, FSM_STIMULUS_YES) ] := by
  repeat' apply And.intro
  all_goals first
    | rfl
    | (intro s x
       cases s <;> cases x <;> simp [fsm_map_lookup, gui_fsm_map])

/-- C2. A dispatch whose (current state, stimulus) pair has no entry in
`gui_fsm_map` returns the configuration it was given: the current state, the
status projection and the history of entered states are unchanged. This covers
the auto-advance stimulus in `STATE_GUI_SHOW_STATUS` and every stimulus other
than auto-advance in each of the eight transient states. -/
theorem generate_stimulus_table_miss {N : Nat} (B fuel : Nat) (g : gui_t N)
    (x : gui_fsm_stimulus_t)
    (hmiss : fsm_map_lookup gui_fsm_map g.fsm.current_state x = none ∨
      (g.fsm.current_state = STATE_GUI_SHOW_STATUS ∧ x = FSM_STIMULUS_YES) ∨
      (g.fsm.current_state ∈
          [ STATE_GUI_REQUESTING_STATUS, STATE_GUI_REQUESTING_STATUS_DONE,
            STATE_GUI_REQUESTING_DATA_TO_SAVE, STATE_GUI_DATA_SAVED,
            STATE_GUI_INSERTING_MDR, STATE_GUI_INSERTED_MDR,
            STATE_GUI_SELECTING_NEXT_MD, STATE_GUI_SELECTING_PREVIOUS_MD ] ∧
        x ≠ FSM_STIMULUS_YES)) :
    generate_stimulus N B (fuel + 1) x g = .ok g := by
  have hnone : fsm_map_lookup gui_fsm_map g.fsm.current_state x = none := by
    rcases hmiss with h | ⟨hs, hx⟩ | ⟨hs, hx⟩
    · exact h
    · rw [hs, hx]; rfl
    · simp only [List.mem_cons, List.mem_singleton, List.not_mem_nil, or_false] at hs
      rcases hs with hs | hs | hs | hs | hs | hs | hs | hs <;> rw [hs] <;>
        cases x <;> first | exact absurd rfl hx | rfl
  simp [generate_stimulus, query_gui_fsm_map, hnone]

theorem generate_stimulus_table_miss_witness :
    sample_gui.fsm.current_state = STATE_GUI_SHOW_STATUS ∧
    generate_stimulus 2 543 1 FSM_STIMULUS_YES sample_gui = .ok sample_gui :=
  ⟨rfl, generate_stimulus_table_miss 543 0 sample_gui FSM_STIMULUS_YES
    (Or.inr (Or.inl ⟨rfl, rfl⟩))⟩

/-! ## Round trips -/

/-- C3. From `STATE_GUI_SHOW_STATUS`, with the selected index in range, each
of the eight external stimuli makes the engine enter the correspondingly named
transient state and then `STATE_GUI_SHOW_STATUS`; the dispatch returns and the
current state is `STATE_GUI_SHOW_STATUS` again. -/
theorem generate_stimulus_round_trip {N : Nat} (B fuel : Nat)
    (live : live_microdrive_data_t N) (status : status_screen_t N)
    (entered : List gui_fsm_state_t) (x : gui_fsm_stimulus_t) (t : gui_fsm_state_t)
    (hsel : 0 ≤ status.selected ∧ status.selected < (N : Int))
    (hx : (x, t) ∈
      [ (ST_MDR_INSERTING, STATE_GUI_INSERTING_MDR),
        (ST_MDR_INSERTED, STATE_GUI_INSERTED_MDR),
        (ST_ROTATE_CCW, STATE_GUI_SELECTING_NEXT_MD),
        (ST_ROTATE_CW, STATE_GUI_SELECTING_PREVIOUS_MD),
        (ST_REQUEST_STATUS, STATE_GUI_REQUESTING_STATUS),
        (ST_REQUEST_STATUS_DONE, STATE_GUI_REQUESTING_STATUS_DONE),
        (ST_REQUEST_DATA_TO_SAVE, STATE_GUI_REQUESTING_DATA_TO_SAVE),
        (ST_DATA_SAVED, STATE_GUI_DATA_SAVED) ]) :
    ∃ g' : gui_t N,
      generate_stimulus N B (fuel + 2) x
        ⟨⟨STATE_GUI_SHOW_STATUS, live⟩, status, entered⟩ = .ok g' ∧
      g'.entered = entered ++ [t, STATE_GUI_SHOW_STATUS] ∧
      g'.fsm.current_state = STATE_GUI_SHOW_STATUS :=
  generate_stimulus_external_ok B fuel live status entered x t hsel hx

theorem generate_stimulus_round_trip_witness :
    (0 ≤ sample_status.selected ∧ sample_status.selected < ((2 : Nat) : Int)) ∧
    ∃ g' : gui_t 2,
      generate_stimulus 2 543 2 ST_ROTATE_CCW
        ⟨⟨STATE_GUI_SHOW_STATUS, sample_live⟩, sample_status, []⟩ = .ok g' ∧
      g'.entered = [] ++ [STATE_GUI_SELECTING_NEXT_MD, STATE_GUI_SHOW_STATUS] ∧
      g'.fsm.current_state = STATE_GUI_SHOW_STATUS :=
  ⟨by decide,
    generate_stimulus_round_trip 543 0 sample_live sample_status [] ST_ROTATE_CCW
      STATE_GUI_SELECTING_NEXT_MD (by decide) (by simp)⟩

/-! ## Boot -/

/-- C4. Boot: with at least one drive, initialising the engine in the state
returned by `query_gui_fsm_initial_state` (which is `STATE_GUI_INIT`) succeeds
for every snapshot and every prior content of `status`, and ends in
`STATE_GUI_SHOW_STATUS` with selected index 0 and save-request field -1. -/
theorem fsm_init_boot {N : Nat} (B fuel : Nat) (hN : 0 < N)
    (live : live_microdrive_data_t N) (status : status_screen_t N) :
    query_gui_fsm_initial_state = STATE_GUI_INIT ∧
    ∃ g : gui_t N,
      fsm_init N B (fuel + 1) query_gui_fsm_initial_state live status = .ok g ∧
      g.fsm.current_state = STATE_GUI_SHOW_STATUS ∧
      g.status.selected = 0 ∧
      g.status.requesting_data_from_microdrive = -1 ∧
      g.entered = [STATE_GUI_INIT, STATE_GUI_SHOW_STATUS] :=
  fsm_init_ok B fuel hN live status

theorem fsm_init_boot_witness :
    0 < 2 ∧
    ∃ g : gui_t 2,
      fsm_init 2 543 1 query_gui_fsm_initial_state sample_live sample_status = .ok g ∧
      g.fsm.current_state = STATE_GUI_SHOW_STATUS ∧
      g.status.selected = 0 ∧
      g.status.requesting_data_from_microdrive = -1 ∧
      g.entered = [STATE_GUI_INIT, STATE_GUI_SHOW_STATUS] :=
  ⟨by decide, (fsm_init_boot 543 0 (by decide) sample_live sample_status).2⟩

/-! ## Selection -/

/-- C5. For a selected index `i` with `0 ≤ i < N`, `gui_sm_selecting_next_md`
continues with the selected index `(i + 1) mod N` (0 when `i = N - 1`) and
`gui_sm_selecting_previous_md` with `(i + N - 1) mod N` (`N - 1` when
`i = 0`); both change nothing else before injecting the auto-advance
stimulus. -/
theorem selecting_wraparound {N : Nat} (gen : dispatch_fn N) (g : gui_t N)
    (h : 0 ≤ g.status.selected ∧ g.status.selected < (N : Int)) :
    gui_sm_selecting_next_md gen g =
        gen FSM_STIMULUS_YES
          { g with status :=
              { g.status with selected := (g.status.selected + 1) % (N : Int) } } ∧
    gui_sm_selecting_previous_md gen g =
        gen FSM_STIMULUS_YES
          { g with status :=
              { g.status with selected := (g.status.selected + (N : Int) - 1) % (N : Int) } } ∧
    (g.status.selected = (N : Int) - 1 → (g.status.selected + 1) % (N : Int) = 0) ∧
    (g.status.selected = 0 →
      (g.status.selected + (N : Int) - 1) % (N : Int) = (N : Int) - 1) := by
  obtain ⟨h0, hN⟩ := h
  have hnext : (if g.status.selected + 1 = (N : Int) then (0 : Int)
      else g.status.selected + 1) = (g.status.selected + 1) % (N : Int) := by
    split
    · next heq => rw [heq, Int.emod_self]
    · next hne => rw [Int.emod_eq_of_lt (by omega) (by omega)]
  have hprev : (if g.status.selected = 0 then (N : Int) - 1
      else g.status.selected - 1) = (g.status.selected + (N : Int) - 1) % (N : Int) := by
    split
    · next heq => rw [heq, Int.emod_eq_of_lt (by omega) (by omega)]; omega
    · next hne =>
      have : g.status.selected + (N : Int) - 1 = (g.status.selected - 1) + (N : Int) := by
        omega
      rw [this, Int.add_emod_self, Int.emod_eq_of_lt (by omega) (by omega)]
  refine ⟨?_, ?_, ?_, ?_⟩
  · simp only [gui_sm_selecting_next_md, hnext]
  · simp only [gui_sm_selecting_previous_md, hprev]
  · intro heq
    rw [← hnext, if_pos (by omega)]
  · intro heq
    rw [← hprev, if_pos heq]

theorem selecting_wraparound_witness :
    (0 ≤ sample_gui.status.selected ∧ sample_gui.status.selected < ((2 : Nat) : Int)) ∧
    gui_sm_selecting_previous_md (generate_stimulus 2 543 1) sample_gui =
      generate_stimulus 2 543 1 FSM_STIMULUS_YES
        { sample_gui with status :=
            { sample_gui.status with
                selected := (sample_gui.status.selected + ((2 : Nat) : Int) - 1)
                  % ((2 : Nat) : Int) } } :=
  ⟨by decide, (selecting_wraparound (generate_stimulus 2 543 1) sample_gui (by decide)).2.1⟩


/-! ## The selected index stays in range -/

/-- C6. In every configuration reachable from boot by any finite sequence of
dispatches, the snapshot changing arbitrarily between them, the selected index
satisfies `0 ≤ selected < N`: the subscript `currently_inserted[selected]` of
`gui_sm_show_status` is a position of the array, and every further dispatch,
over any snapshot, returns. -/
theorem reachable_selected_in_range {N : Nat} (B : Nat) (g : gui_t N)
    (h : Reachable N B g) :
    (0 ≤ g.status.selected ∧ g.status.selected < (N : Int)) ∧
    (∃ k : Fin N, array_index N g.status.selected = some k) ∧
    (∀ (fuel : Nat) (x : gui_fsm_stimulus_t) (live : live_microdrive_data_t N),
      ∃ g' : gui_t N,
        generate_stimulus N B (fuel + 2) x
          { g with fsm := { g.fsm with fsm_data := live } } = .ok g') := by
  have inv : g.fsm.current_state = STATE_GUI_SHOW_STATUS ∧
      (0 ≤ g.status.selected ∧ g.status.selected < (N : Int)) := by
    induction h with
    | boot fuel live status g hboot =>
      cases fuel with
      | zero =>
        simp [fsm_init, query_gui_fsm_initial_state, query_gui_fsm_binding, binding,
          fsm_binding_lookup, gui_sm_init, generate_stimulus] at hboot
      | succ f =>
        unfold fsm_init at hboot
        rw [show query_gui_fsm_initial_state = STATE_GUI_INIT from rfl,
          binding_lookup_init] at hboot
        simp only [gui_sm_init] at hboot
        rw [generate_stimulus_yes B f _ _ _ _ (by decide)] at hboot
        obtain ⟨hin, hfsm, -, hsel⟩ := gui_sm_show_status_inv _ _ _ _ hboot
        exact ⟨by rw [hfsm], by rw [hsel]; exact hin⟩
    | dispatch fuel x live g g' _ hstep ih =>
      exact generate_stimulus_preserves B fuel x
        { g with fsm := { g.fsm with fsm_data := live } } g' ih.1 ih.2 hstep
  obtain ⟨hs, hr⟩ := inv
  refine ⟨hr, ?_, ?_⟩
  · obtain ⟨k, hk, -⟩ := array_index_in_range g.status.selected hr
    exact ⟨k, hk⟩
  · intro fuel x live
    obtain ⟨⟨s, live0⟩, st, e⟩ := g
    simp only at hs hr
    subst hs
    have ext : ∀ (x : gui_fsm_stimulus_t) (t : gui_fsm_state_t),
        (x, t) ∈
          [ (ST_MDR_INSERTING, STATE_GUI_INSERTING_MDR),
            (ST_MDR_INSERTED, STATE_GUI_INSERTED_MDR),
            (ST_ROTATE_CCW, STATE_GUI_SELECTING_NEXT_MD),
            (ST_ROTATE_CW, STATE_GUI_SELECTING_PREVIOUS_MD),
            (ST_REQUEST_STATUS, STATE_GUI_REQUESTING_STATUS),
            (ST_REQUEST_STATUS_DONE, STATE_GUI_REQUESTING_STATUS_DONE),
            (ST_REQUEST_DATA_TO_SAVE, STATE_GUI_REQUESTING_DATA_TO_SAVE),
            (ST_DATA_SAVED, STATE_GUI_DATA_SAVED) ] →
        ∃ g' : gui_t N,
          generate_stimulus N B (fuel + 2) x
            ⟨⟨STATE_GUI_SHOW_STATUS, live⟩, st, e⟩ = .ok g' := by
      intro x t hx
      obtain ⟨g', hg, -⟩ := generate_stimulus_external_ok B fuel live st e x t hr hx
      exact ⟨g', hg⟩
    cases x
    case FSM_STIMULUS_NONE =>
      refine ⟨⟨⟨STATE_GUI_SHOW_STATUS, live⟩, st, e⟩, ?_⟩
      simp [generate_stimulus, query_gui_fsm_map, gui_fsm_map, fsm_map_lookup]
    case FSM_STIMULUS_YES =>
      refine ⟨⟨⟨STATE_GUI_SHOW_STATUS, live⟩, st, e⟩, ?_⟩
      simp [generate_stimulus, query_gui_fsm_map, gui_fsm_map, fsm_map_lookup]
    case ST_MDR_INSERTING => exact ext _ STATE_GUI_INSERTING_MDR (by simp)
    case ST_MDR_INSERTED => exact ext _ STATE_GUI_INSERTED_MDR (by simp)
    case ST_ROTATE_CCW => exact ext _ STATE_GUI_SELECTING_NEXT_MD (by simp)
    case ST_ROTATE_CW => exact ext _ STATE_GUI_SELECTING_PREVIOUS_MD (by simp)
    case ST_REQUEST_STATUS => exact ext _ STATE_GUI_REQUESTING_STATUS (by simp)
    case ST_REQUEST_STATUS_DONE => exact ext _ STATE_GUI_REQUESTING_STATUS_DONE (by simp)
    case ST_REQUEST_DATA_TO_SAVE => exact ext _ STATE_GUI_REQUESTING_DATA_TO_SAVE (by simp)
    case ST_DATA_SAVED => exact ext _ STATE_GUI_DATA_SAVED (by simp)

theorem sample_booted_eq :
    fsm_init 2 543 1 query_gui_fsm_initial_state sample_live sample_status
      = .ok sample_booted := by
  obtain ⟨g, hg, -⟩ := (fsm_init_ok 543 0 (by decide) sample_live sample_status).2
  unfold sample_booted
  rw [hg]

theorem reachable_selected_in_range_witness :
    Reachable 2 543 sample_booted ∧
    (0 ≤ sample_booted.status.selected ∧
      sample_booted.status.selected < ((2 : Nat) : Int)) :=
  ⟨Reachable.boot 1 sample_live sample_status sample_booted sample_booted_eq,
    (reachable_selected_in_range 543 sample_booted
      (Reachable.boot 1 sample_live sample_status sample_booted sample_booted_eq)).1⟩

/-! ## The projection rebuilt by `gui_sm_show_status` -/

/-- C7. When the selected index is the position `k` and drive `k` is
`LIVE_STATUS_INSERTED` with data length `L`, `gui_sm_show_status` returns with
`num_blocks = L / B` (the quotient truncated: `num_blocks * B ≤ L <
(num_blocks + 1) * B`), the drive's filename, its write-protect flag, and
`inserting` false. -/
theorem show_status_inserted {N : Nat} (B : Nat) (gen : dispatch_fn N) (g : gui_t N)
    (k : Fin N) (hB : 0 < B) (hsel : g.status.selected = (k.val : Int))
    (hst : (g.fsm.fsm_data.currently_inserted k).status = LIVE_STATUS_INSERTED) :
    ∃ g' : gui_t N,
      gui_sm_show_status B gen g = .ok g' ∧
      g'.status.num_blocks = (g.fsm.fsm_data.currently_inserted k).cartridge_data_length / B ∧
      g'.status.num_blocks * B ≤ (g.fsm.fsm_data.currently_inserted k).cartridge_data_length ∧
      (g.fsm.fsm_data.currently_inserted k).cartridge_data_length
        < (g'.status.num_blocks + 1) * B ∧
      g'.status.filename = (g.fsm.fsm_data.currently_inserted k).filename ∧
      g'.status.write_protected = (g.fsm.fsm_data.currently_inserted k).write_protected ∧
      g'.status.inserting = false := by
  have hres := gui_sm_show_status_eq B gen g k hsel
  simp only [hst, reduceCtorEq, if_false] at hres
  refine ⟨_, hres, rfl, Nat.div_mul_le_self _ _, ?_, rfl, rfl, rfl⟩
  show (g.fsm.fsm_data.currently_inserted k).cartridge_data_length
    < ((g.fsm.fsm_data.currently_inserted k).cartridge_data_length / B + 1) * B
  rw [Nat.mul_comm]
  exact Nat.lt_mul_div_succ _ hB


theorem show_status_inserted_witness :
    0 < 543 ∧ sample_gui.status.selected = (((0 : Fin 2).val : Nat) : Int) ∧
    (sample_gui.fsm.fsm_data.currently_inserted 0).status = LIVE_STATUS_INSERTED ∧
    (sample_gui.fsm.fsm_data.currently_inserted 0).cartridge_data_length = 1000 ∧
    ∃ g' : gui_t 2,
      gui_sm_show_status 543 (generate_stimulus 2 543 0) sample_gui = .ok g' ∧
      g'.status.num_blocks
        = (sample_gui.fsm.fsm_data.currently_inserted 0).cartridge_data_length / 543 :=
  ⟨by decide, rfl, rfl, rfl,
    (show_status_inserted 543 (generate_stimulus 2 543 0) sample_gui 0 (by decide) rfl
      rfl).imp (fun _ h => ⟨h.1, h.2.1⟩)⟩

/-- C8. When the selected index is the position `k` and drive `k` is
`LIVE_STATUS_NO_CARTRIDGE`, `gui_sm_show_status` returns with `filename` unset,
`num_blocks` 0, `write_protected` false and `inserting` false, whatever
`status` held before. -/
theorem show_status_no_cartridge {N : Nat} (B : Nat) (gen : dispatch_fn N) (g : gui_t N)
    (k : Fin N) (hsel : g.status.selected = (k.val : Int))
    (hst : (g.fsm.fsm_data.currently_inserted k).status = LIVE_STATUS_NO_CARTRIDGE) :
    ∃ g' : gui_t N,
      gui_sm_show_status B gen g = .ok g' ∧
      g'.status.filename = none ∧
      g'.status.num_blocks = 0 ∧
      g'.status.write_protected = false ∧
      g'.status.inserting = false := by
  have hres := gui_sm_show_status_eq B gen g k hsel
  simp only [hst, if_true] at hres
  exact ⟨_, hres, rfl, rfl, rfl, rfl⟩

theorem show_status_no_cartridge_witness :
    sample_status.selected = (((0 : Fin 2).val : Nat) : Int) ∧
    (sample_live_empty.currently_inserted 0).status = LIVE_STATUS_NO_CARTRIDGE ∧
    sample_status.filename = some "old.mdr" ∧
    ∃ g' : gui_t 2,
      gui_sm_show_status 543 (generate_stimulus 2 543 0)
        ⟨⟨STATE_GUI_SHOW_STATUS, sample_live_empty⟩, sample_status, []⟩ = .ok g' ∧
      g'.status.filename = none ∧
      g'.status.num_blocks = 0 ∧
      g'.status.write_protected = false ∧
      g'.status.inserting = false :=
  ⟨rfl, rfl, rfl,
    show_status_no_cartridge 543 (generate_stimulus 2 543 0)
      ⟨⟨STATE_GUI_SHOW_STATUS, sample_live_empty⟩, sample_status, []⟩ 0 rfl rfl⟩

/-- C9. When the selected index is the position `k` and drive `k` is
`LIVE_STATUS_INSERTING`, `gui_sm_show_status` returns with `inserting` true
and with `filename`, `num_blocks`, `write_protected`, `selected`,
`requesting_status` and the save-request field exactly as before the call;
apart from `inserting` only the per-drive flags `md_inserted` are rewritten. -/
theorem show_status_inserting_frame {N : Nat} (B : Nat) (gen : dispatch_fn N) (g : gui_t N)
    (k : Fin N) (hsel : g.status.selected = (k.val : Int))
    (hst : (g.fsm.fsm_data.currently_inserted k).status = LIVE_STATUS_INSERTING) :
    ∃ g' : gui_t N,
      gui_sm_show_status B gen g = .ok g' ∧
      g'.status.inserting = true ∧
      g'.status.filename = g.status.filename ∧
      g'.status.num_blocks = g.status.num_blocks ∧
      g'.status.write_protected = g.status.write_protected ∧
      g'.status.selected = g.status.selected ∧
      g'.status.requesting_status = g.status.requesting_status ∧
      g'.status.requesting_data_from_microdrive
        = g.status.requesting_data_from_microdrive ∧
      g'.status =
        { g.status with
            md_inserted := fun i =>
              decide ((g.fsm.fsm_data.currently_inserted i).status = LIVE_STATUS_INSERTED),
            inserting := true } := by
  have hres := gui_sm_show_status_eq B gen g k hsel
  simp only [hst, reduceCtorEq, if_true, if_false] at hres
  exact ⟨_, hres, rfl, rfl, rfl, rfl, rfl, rfl, rfl, rfl⟩

theorem show_status_inserting_frame_witness :
    stale_status_a.selected = (((1 : Fin 2).val : Nat) : Int) ∧
    (sample_live.currently_inserted 1).status = LIVE_STATUS_INSERTING ∧
    stale_status_a.filename = some "old.mdr" ∧
    ∃ g' : gui_t 2,
      gui_sm_show_status 543 (generate_stimulus 2 543 0)
        ⟨⟨STATE_GUI_SHOW_STATUS, sample_live⟩, stale_status_a, []⟩ = .ok g' ∧
      g'.status.inserting = true ∧
      g'.status.filename = stale_status_a.filename :=
  ⟨rfl, rfl, rfl,
    (show_status_inserting_frame 543 (generate_stimulus 2 543 0)
      ⟨⟨STATE_GUI_SHOW_STATUS, sample_live⟩, stale_status_a, []⟩ 1 rfl rfl).imp
      (fun _ h => ⟨h.1, h.2.1, h.2.2.1⟩)⟩


/-- C10, counterexample. Over `sample_live`, whose drive 1 is
`LIVE_STATUS_INSERTING`, the prior projections `stale_status_a` and
`stale_status_b` agree on the selected index (1), the requesting-status flag
and the save-request field, yet `gui_sm_show_status` produces different
projections: the first keeps the filename "old.mdr", the second keeps none. -/
theorem show_status_depends_on_prior_fields :
    stale_status_a.selected = stale_status_b.selected ∧
    stale_status_a.requesting_status = stale_status_b.requesting_status ∧
    stale_status_a.requesting_data_from_microdrive
      = stale_status_b.requesting_data_from_microdrive ∧
    Except.map (fun g => g.status.filename)
      (gui_sm_show_status 543 (generate_stimulus 2 543 0)
        ⟨⟨STATE_GUI_SHOW_STATUS, sample_live⟩, stale_status_a, []⟩)
      = .ok (some "old.mdr") ∧
    Except.map (fun g => g.status.filename)
      (gui_sm_show_status 543 (generate_stimulus 2 543 0)
        ⟨⟨STATE_GUI_SHOW_STATUS, sample_live⟩, stale_status_b, []⟩)
      = .ok none ∧
    Except.map (fun g => g.status)
      (gui_sm_show_status 543 (generate_stimulus 2 543 0)
        ⟨⟨STATE_GUI_SHOW_STATUS, sample_live⟩, stale_status_a, []⟩)
      ≠ Except.map (fun g => g.status)
      (gui_sm_show_status 543 (generate_stimulus 2 543 0)
        ⟨⟨STATE_GUI_SHOW_STATUS, sample_live⟩, stale_status_b, []⟩) := by
  have ha := gui_sm_show_status_eq 543 (generate_stimulus 2 543 0)
    ⟨⟨STATE_GUI_SHOW_STATUS, sample_live⟩, stale_status_a, []⟩ 1 rfl
  have hb := gui_sm_show_status_eq 543 (generate_stimulus 2 543 0)
    ⟨⟨STATE_GUI_SHOW_STATUS, sample_live⟩, stale_status_b, []⟩ 1 rfl
  have hdrive : (sample_live.currently_inserted 1).status = LIVE_STATUS_INSERTING := rfl
  simp only [hdrive, reduceCtorEq, if_true, if_false] at ha hb
  rw [ha, hb]
  refine ⟨rfl, rfl, rfl, rfl, rfl, ?_⟩
  intro h
  have hfn := congrArg (fun r => Except.map (fun st : status_screen_t 2 => st.filename) r) h
  simp [Except.map, stale_status_a, stale_status_b] at hfn

/-- C10, amended. The projection produced by `gui_sm_show_status` is a
function of the snapshot, the selected index, the requesting-status flag and
the save-request field, and, when the selected drive is
`LIVE_STATUS_INSERTING`, of the prior `filename`, `num_blocks` and
`write_protected` as well: two prior projections that agree on these (and may
differ in `inserting`, `md_inserted` and, for a selected drive that is not
being inserted, in the three detail fields) give equal results. -/
theorem show_status_function_of_inputs {N : Nat} (B : Nat) (gen1 gen2 : dispatch_fn N)
    (fsm : fsm_t N) (s1 s2 : status_screen_t N) (e1 e2 : List gui_fsm_state_t)
    (hsel : s1.selected = s2.selected)
    (hrs : s1.requesting_status = s2.requesting_status)
    (hrd : s1.requesting_data_from_microdrive = s2.requesting_data_from_microdrive)
    (hstale : ∀ k : Fin N, s1.selected = (k.val : Int) →
      (fsm.fsm_data.currently_inserted k).status = LIVE_STATUS_INSERTING →
      s1.filename = s2.filename ∧ s1.num_blocks = s2.num_blocks ∧
        s1.write_protected = s2.write_protected) :
    Except.map (fun g => g.status) (gui_sm_show_status B gen1 ⟨fsm, s1, e1⟩)
      = Except.map (fun g => g.status) (gui_sm_show_status B gen2 ⟨fsm, s2, e2⟩) := by
  by_cases hr : 0 ≤ s1.selected ∧ s1.selected < (N : Int)
  · obtain ⟨k, -, hk⟩ := array_index_in_range s1.selected hr
    rw [gui_sm_show_status_eq B gen1 ⟨fsm, s1, e1⟩ k hk.symm,
      gui_sm_show_status_eq B gen2 ⟨fsm, s2, e2⟩ k (hsel ▸ hk.symm)]
    obtain ⟨sel1, md1, ins1, fn1, nb1, wp1, rs1, rd1⟩ := s1
    obtain ⟨sel2, md2, ins2, fn2, nb2, wp2, rs2, rd2⟩ := s2
    simp only at hsel hrs hrd hstale hk
    subst hsel hrs hrd
    cases hst : (fsm.fsm_data.currently_inserted k).status
    · simp [Except.map]
    · obtain ⟨h1, h2, h3⟩ := hstale k hk.symm hst
      subst h1 h2 h3
      simp [Except.map]
    · simp [Except.map]
  · have hn1 : array_index N s1.selected = none := by
      unfold array_index
      rw [dif_neg hr]
    have hn2 : array_index N s2.selected = none := hsel ▸ hn1
    unfold gui_sm_show_status
    simp only [hn1, hn2]

theorem show_status_function_of_inputs_witness :
    stale_status_a.selected = stale_status_b.selected ∧
    stale_status_a.filename ≠ stale_status_b.filename ∧
    Except.map (fun g => g.status)
      (gui_sm_show_status 543 (generate_stimulus 2 543 0)
        ⟨⟨STATE_GUI_SHOW_STATUS, sample_live_empty⟩, stale_status_a, []⟩)
      = Except.map (fun g => g.status)
      (gui_sm_show_status 543 (generate_stimulus 2 543 0)
        ⟨⟨STATE_GUI_SHOW_STATUS, sample_live_empty⟩, stale_status_b, []⟩) :=
  ⟨rfl, by decide,
    show_status_function_of_inputs 543 (generate_stimulus 2 543 0)
      (generate_stimulus 2 543 0) ⟨STATE_GUI_SHOW_STATUS, sample_live_empty⟩
      stale_status_a stale_status_b [] [] rfl rfl rfl
      (fun _ _ h => by cases h)⟩


/-! ## Exact form of a dispatch -/

/-- The dispatcher handed to `gui_sm_show_status` is never called. -/
theorem gui_sm_show_status_gen {N : Nat} (B : Nat) (gen1 gen2 : dispatch_fn N)
    (g : gui_t N) : gui_sm_show_status B gen1 g = gui_sm_show_status B gen2 g := rfl

/-- A dispatch with no table entry returns the configuration as it is. -/
theorem generate_stimulus_miss {N : Nat} (B fuel : Nat) (x : gui_fsm_stimulus_t)
    (g : gui_t N) (h : fsm_map_lookup gui_fsm_map g.fsm.current_state x = none) :
    generate_stimulus N B (fuel + 1) x g = .ok g := by
  simp [generate_stimulus, query_gui_fsm_map, h]

/-- The three kinds of (state, stimulus) pairs: no entry; the auto-advance
stimulus in the initial or a transient state; an external stimulus at rest. -/
theorem gui_fsm_map_kinds (s : gui_fsm_state_t) (x : gui_fsm_stimulus_t) :
    fsm_map_lookup gui_fsm_map s x = none ∨
    (x = FSM_STIMULUS_YES ∧ s ≠ FSM_STATE_NONE ∧ s ≠ STATE_GUI_SHOW_STATUS) ∨
    (s = STATE_GUI_SHOW_STATUS ∧ x ≠ FSM_STIMULUS_YES ∧ x ≠ FSM_STIMULUS_NONE) := by
  cases s <;> cases x <;> simp [fsm_map_lookup, gui_fsm_map]

/-- Each external stimulus dispatched at rest amounts to the side effect of
the transient state's entry function followed by `gui_sm_show_status`. -/
theorem generate_stimulus_external_eq {N : Nat} (B fuel : Nat)
    (live : live_microdrive_data_t N) (st : status_screen_t N)
    (e : List gui_fsm_state_t) :
    generate_stimulus N B (fuel + 2) ST_MDR_INSERTING ⟨⟨STATE_GUI_SHOW_STATUS, live⟩, st, e⟩ =
      gui_sm_show_status B (generate_stimulus N B fuel)
        ⟨⟨STATE_GUI_SHOW_STATUS, live⟩, st,
          e ++ [STATE_GUI_INSERTING_MDR, STATE_GUI_SHOW_STATUS]⟩ ∧
    generate_stimulus N B (fuel + 2) ST_MDR_INSERTED ⟨⟨STATE_GUI_SHOW_STATUS, live⟩, st, e⟩ =
      gui_sm_show_status B (generate_stimulus N B fuel)
        ⟨⟨STATE_GUI_SHOW_STATUS, live⟩, st,
          e ++ [STATE_GUI_INSERTED_MDR, STATE_GUI_SHOW_STATUS]⟩ ∧
    generate_stimulus N B (fuel + 2) ST_ROTATE_CCW ⟨⟨STATE_GUI_SHOW_STATUS, live⟩, st, e⟩ =
      gui_sm_show_status B (generate_stimulus N B fuel)
        ⟨⟨STATE_GUI_SHOW_STATUS, live⟩,
          { st with selected := if st.selected + 1 = (N : Int) then 0 else st.selected + 1 },
          e ++ [STATE_GUI_SELECTING_NEXT_MD, STATE_GUI_SHOW_STATUS]⟩ ∧
    generate_stimulus N B (fuel + 2) ST_ROTATE_CW ⟨⟨STATE_GUI_SHOW_STATUS, live⟩, st, e⟩ =
      gui_sm_show_status B (generate_stimulus N B fuel)
        ⟨⟨STATE_GUI_SHOW_STATUS, live⟩,
          { st with selected := if st.selected = 0 then (N : Int) - 1 else st.selected - 1 },
          e ++ [STATE_GUI_SELECTING_PREVIOUS_MD, STATE_GUI_SHOW_STATUS]⟩ ∧
    generate_stimulus N B (fuel + 2) ST_REQUEST_STATUS ⟨⟨STATE_GUI_SHOW_STATUS, live⟩, st, e⟩ =
      gui_sm_show_status B (generate_stimulus N B fuel)
        ⟨⟨STATE_GUI_SHOW_STATUS, live⟩, { st with requesting_status := true },
          e ++ [STATE_GUI_REQUESTING_STATUS, STATE_GUI_SHOW_STATUS]⟩ ∧
    generate_stimulus N B (fuel + 2) ST_REQUEST_STATUS_DONE
        ⟨⟨STATE_GUI_SHOW_STATUS, live⟩, st, e⟩ =
      gui_sm_show_status B (generate_stimulus N B fuel)
        ⟨⟨STATE_GUI_SHOW_STATUS, live⟩, { st with requesting_status := false },
          e ++ [STATE_GUI_REQUESTING_STATUS_DONE, STATE_GUI_SHOW_STATUS]⟩ ∧
    generate_stimulus N B (fuel + 2) ST_REQUEST_DATA_TO_SAVE
        ⟨⟨STATE_GUI_SHOW_STATUS, live⟩, st, e⟩ =
      gui_sm_show_status B (generate_stimulus N B fuel)
        ⟨⟨STATE_GUI_SHOW_STATUS, live⟩,
          { st with requesting_data_from_microdrive := live.microdrive_saving_to_sd },
          e ++ [STATE_GUI_REQUESTING_DATA_TO_SAVE, STATE_GUI_SHOW_STATUS]⟩ ∧
    generate_stimulus N B (fuel + 2) ST_DATA_SAVED ⟨⟨STATE_GUI_SHOW_STATUS, live⟩, st, e⟩ =
      gui_sm_show_status B (generate_stimulus N B fuel)
        ⟨⟨STATE_GUI_SHOW_STATUS, live⟩,
          { st with requesting_data_from_microdrive := live.microdrive_saving_to_sd },
          e ++ [STATE_GUI_DATA_SAVED, STATE_GUI_SHOW_STATUS]⟩ := by
  have step : ∀ (x : gui_fsm_stimulus_t) (f1 : Nat),
      generate_stimulus N B (f1 + 1) x ⟨⟨STATE_GUI_SHOW_STATUS, live⟩, st, e⟩ =
        match fsm_map_lookup query_gui_fsm_map STATE_GUI_SHOW_STATUS x with
        | none => .ok ⟨⟨STATE_GUI_SHOW_STATUS, live⟩, st, e⟩
        | some dest =>
          match fsm_binding_lookup (query_gui_fsm_binding N B) dest with
          | none => .error .no_binding
          | some entry =>
            entry (generate_stimulus N B f1) ⟨⟨dest, live⟩, st, e ++ [dest]⟩ := by
    intro x f1
    rfl
  repeat' apply And.intro
  all_goals
    rw [show fuel + 2 = (fuel + 1) + 1 from rfl, step]
    simp only [query_gui_fsm_map, gui_fsm_map, fsm_map_lookup, query_gui_fsm_binding,
      binding, fsm_binding_lookup, reduceCtorEq, and_self, and_true, and_false,
      if_true, if_false]
    simp only [gui_sm_inserting_mdr, gui_sm_inserted_mdr, gui_sm_selecting_next_md,
      gui_sm_selecting_previous_md, gui_sm_requesting_status,
      gui_sm_requesting_status_done, gui_sm_requesting_data_to_save, gui_sm_data_saved]
    rw [generate_stimulus_yes B fuel _ _ _ _ (by decide), List.append_assoc]
    rfl

/-- A reachable configuration is at rest in `STATE_GUI_SHOW_STATUS` with the
selected index in range. -/
theorem reachable_at_rest {N : Nat} (B : Nat) (g : gui_t N) (h : Reachable N B g) :
    g.fsm.current_state = STATE_GUI_SHOW_STATUS ∧
    (0 ≤ g.status.selected ∧ g.status.selected < (N : Int)) := by
  induction h with
  | boot fuel live status g hboot =>
    cases fuel with
    | zero =>
      simp [fsm_init, query_gui_fsm_initial_state, query_gui_fsm_binding, binding,
        fsm_binding_lookup, gui_sm_init, generate_stimulus] at hboot
    | succ f =>
      unfold fsm_init at hboot
      rw [show query_gui_fsm_initial_state = STATE_GUI_INIT from rfl,
        binding_lookup_init] at hboot
      simp only [gui_sm_init] at hboot
      rw [generate_stimulus_yes B f _ _ _ _ (by decide)] at hboot
      obtain ⟨hin, hfsm, -, hsel⟩ := gui_sm_show_status_inv _ _ _ _ hboot
      exact ⟨by rw [hfsm], by rw [hsel]; exact hin⟩
  | dispatch fuel x live g g' _ hstep ih =>
    exact generate_stimulus_preserves B fuel x
      { g with fsm := { g.fsm with fsm_data := live } } g' ih.1 ih.2 hstep


/-- With the selected index in range, `gui_sm_show_status` returns at rest
with the detail fields as `detail_fields_after` describes them. -/
theorem gui_sm_show_status_detail {N : Nat} (B : Nat) (gen : dispatch_fn N)
    (live : live_microdrive_data_t N) (st : status_screen_t N) (e : List gui_fsm_state_t)
    (hr : 0 ≤ st.selected ∧ st.selected < (N : Int)) :
    ∃ g' : gui_t N,
      gui_sm_show_status B gen ⟨⟨STATE_GUI_SHOW_STATUS, live⟩, st, e⟩ = .ok g' ∧
      g'.fsm.current_state = STATE_GUI_SHOW_STATUS ∧
      detail_fields_after B live st g' := by
  obtain ⟨k, -, hk⟩ := array_index_in_range st.selected hr
  refine ⟨_, gui_sm_show_status_eq B gen ⟨⟨STATE_GUI_SHOW_STATUS, live⟩, st, e⟩ k hk.symm,
    rfl, k, ?_, ?_⟩
  · cases (live.currently_inserted k).status <;> simp [hk]
  · cases hst : (live.currently_inserted k).status <;> simp

/-! ## Whose detail fields the projection shows -/

/-- C11, counterexample. Boot over `sample_live` (drive 0 inserted with
"games.mdr", drive 1 being inserted) and then one `ST_ROTATE_CCW` over the
same snapshot reach a configuration at rest that selects drive 1 but whose
detail fields are those of drive 0: they are neither cleared nor the values
of entry 1, the only entry `gui_sm_show_status` could have read for drive 1. -/
theorem stale_detail_fields_after_rotation :
    Reachable 2 543 sample_rotated ∧
    sample_rotated.fsm.current_state = STATE_GUI_SHOW_STATUS ∧
    sample_rotated.status.selected = 1 ∧
    sample_rotated.status.filename = some "games.mdr" ∧
    sample_rotated.status.num_blocks = 1 ∧
    sample_rotated.status.write_protected = true ∧
    (sample_live.currently_inserted 0).filename = some "games.mdr" ∧
    (sample_live.currently_inserted 1).status = LIVE_STATUS_INSERTING ∧
    (sample_live.currently_inserted 1).filename = none ∧
    ¬ ((sample_rotated.status.filename = none ∧ sample_rotated.status.num_blocks = 0 ∧
          sample_rotated.status.write_protected = false) ∨
        (sample_rotated.status.filename = (sample_live.currently_inserted 1).filename ∧
          sample_rotated.status.num_blocks
            = (sample_live.currently_inserted 1).cartridge_data_length / 543 ∧
          sample_rotated.status.write_protected
            = (sample_live.currently_inserted 1).write_protected)) := by
  have hboot : fsm_init 2 543 1 query_gui_fsm_initial_state sample_live sample_status
      = .ok sample_booted := by
    rfl
  have hstep : generate_stimulus 2 543 2 ST_ROTATE_CCW
      { sample_booted with fsm := { sample_booted.fsm with fsm_data := sample_live } }
      = .ok sample_rotated := by
    rfl
  refine ⟨Reachable.dispatch 2 ST_ROTATE_CCW sample_live sample_booted sample_rotated
      (Reachable.boot 1 sample_live sample_status sample_booted hboot) hstep,
    rfl, rfl, rfl, rfl, rfl, rfl, rfl, rfl, ?_⟩
  have hfn : sample_rotated.status.filename = some "games.mdr" := rfl
  rintro (⟨h, -, -⟩ | ⟨h, -, -⟩)
  · rw [hfn] at h
    cases h
  · rw [hfn] at h
    cases h

/-- C11, amended. After boot, and after each dispatch of one of the eight
external stimuli from a reachable configuration, over a snapshot `live`, the
engine rests in `STATE_GUI_SHOW_STATUS` and the detail fields follow the
selected drive unless it is being inserted: they are cleared when its status
in `live` is `LIVE_STATUS_NO_CARTRIDGE`, they are the values read from its
entry of `live` when it is `LIVE_STATUS_INSERTED`, and they are left as they
were before the boot or dispatch when it is `LIVE_STATUS_INSERTING`. -/
theorem detail_fields_follow_selected {N : Nat} (B fuel : Nat) :
    (∀ (live : live_microdrive_data_t N) (prior : status_screen_t N), 0 < N →
      ∃ g' : gui_t N,
        fsm_init N B (fuel + 1) query_gui_fsm_initial_state live prior = .ok g' ∧
        g'.fsm.current_state = STATE_GUI_SHOW_STATUS ∧
        detail_fields_after B live prior g') ∧
    (∀ (g : gui_t N) (live : live_microdrive_data_t N) (x : gui_fsm_stimulus_t),
      Reachable N B g →
      x ∈ [ ST_MDR_INSERTING, ST_MDR_INSERTED, ST_ROTATE_CCW, ST_ROTATE_CW,
            ST_REQUEST_STATUS, ST_REQUEST_STATUS_DONE, ST_REQUEST_DATA_TO_SAVE,
            ST_DATA_SAVED ] →
      ∃ g' : gui_t N,
        generate_stimulus N B (fuel + 2) x
          { g with fsm := { g.fsm with fsm_data := live } } = .ok g' ∧
        g'.fsm.current_state = STATE_GUI_SHOW_STATUS ∧
        detail_fields_after B live g.status g') := by
  constructor
  · intro live prior hN
    unfold fsm_init
    rw [show query_gui_fsm_initial_state = STATE_GUI_INIT from rfl, binding_lookup_init]
    simp only [gui_sm_init]
    rw [generate_stimulus_yes B fuel _ _ _ _ (by decide)]
    have hr : (0 : Int) ≤ 0 ∧ (0 : Int) < (N : Int) := ⟨le_refl 0, by omega⟩
    exact gui_sm_show_status_detail B (generate_stimulus N B fuel) live
      { prior with selected := 0, requesting_data_from_microdrive := -1 }
      ([STATE_GUI_INIT] ++ [STATE_GUI_SHOW_STATUS]) hr
  · intro g live x hreach hx
    obtain ⟨hs, hr⟩ := reachable_at_rest B g hreach
    obtain ⟨⟨s, live0⟩, st, e⟩ := g
    simp only at hs hr
    subst hs
    obtain ⟨h1, h2, h3, h4, h5, h6, h7, h8⟩ :=
      generate_stimulus_external_eq B fuel live st e
    simp only [List.mem_cons, List.mem_singleton, List.not_mem_nil, or_false] at hx
    rcases hx with hx | hx | hx | hx | hx | hx | hx | hx <;> subst hx
    · rw [h1]; exact gui_sm_show_status_detail B _ live st _ hr
    · rw [h2]; exact gui_sm_show_status_detail B _ live st _ hr
    · rw [h3]
      exact gui_sm_show_status_detail B _ live _ _ (by dsimp only; split <;> omega)
    · rw [h4]
      exact gui_sm_show_status_detail B _ live _ _ (by dsimp only; split <;> omega)
    · rw [h5]; exact gui_sm_show_status_detail B _ live _ _ hr
    · rw [h6]; exact gui_sm_show_status_detail B _ live _ _ hr
    · rw [h7]; exact gui_sm_show_status_detail B _ live _ _ hr
    · rw [h8]; exact gui_sm_show_status_detail B _ live _ _ hr

theorem detail_fields_follow_selected_witness :
    Reachable 2 543 sample_booted ∧
    ∃ g' : gui_t 2,
      generate_stimulus 2 543 2 ST_ROTATE_CCW
        { sample_booted with fsm := { sample_booted.fsm with fsm_data := sample_live_empty } }
        = .ok g' ∧
      g'.fsm.current_state = STATE_GUI_SHOW_STATUS ∧
      detail_fields_after 543 sample_live_empty sample_booted.status g' :=
  ⟨Reachable.boot 1 sample_live sample_status sample_booted sample_booted_eq,
    (detail_fields_follow_selected 543 0).2 sample_booted sample_live_empty ST_ROTATE_CCW
      (Reachable.boot 1 sample_live sample_status sample_booted sample_booted_eq)
      (by simp)⟩


/-! ## Per-drive flags -/

/-- C12. With the selected index in range (the position `k`),
`gui_sm_show_status` returns with `md_inserted[i]` true exactly when drive `i`
is `LIVE_STATUS_INSERTED` in the snapshot, for every drive `i`; a drive that
is being inserted or has no cartridge is recorded as not inserted. This holds
whichever drive is selected and whatever the flags were before. -/
theorem show_status_md_inserted {N : Nat} (B : Nat) (gen : dispatch_fn N) (g : gui_t N)
    (k : Fin N) (hsel : g.status.selected = (k.val : Int)) :
    ∃ g' : gui_t N,
      gui_sm_show_status B gen g = .ok g' ∧
      (∀ i : Fin N, g'.status.md_inserted i = true ↔
        (g.fsm.fsm_data.currently_inserted i).status = LIVE_STATUS_INSERTED) ∧
      (∀ i : Fin N,
        ((g.fsm.fsm_data.currently_inserted i).status = LIVE_STATUS_INSERTING ∨
          (g.fsm.fsm_data.currently_inserted i).status = LIVE_STATUS_NO_CARTRIDGE) →
        g'.status.md_inserted i = false) := by
  refine ⟨_, gui_sm_show_status_eq B gen g k hsel, ?_, ?_⟩
  · intro i
    cases (g.fsm.fsm_data.currently_inserted k).status <;> simp
  · intro i hi
    cases (g.fsm.fsm_data.currently_inserted k).status <;>
      rcases hi with hi | hi <;> simp [hi]

theorem show_status_md_inserted_witness :
    sample_gui.status.selected = (((0 : Fin 2).val : Nat) : Int) ∧
    sample_gui.status.md_inserted 0 = false ∧
    ∃ g' : gui_t 2,
      gui_sm_show_status 543 (generate_stimulus 2 543 0) sample_gui = .ok g' ∧
      (∀ i : Fin 2, g'.status.md_inserted i = true ↔
        (sample_gui.fsm.fsm_data.currently_inserted i).status = LIVE_STATUS_INSERTED) :=
  ⟨rfl, rfl,
    (show_status_md_inserted 543 (generate_stimulus 2 543 0) sample_gui 0 rfl).imp
      (fun _ h => ⟨h.1, h.2.1⟩)⟩

/-! ## Save requests and status requests -/

/-- C13. Save round trip. At rest with the selected index in range, a dispatch
of `ST_REQUEST_DATA_TO_SAVE` over a snapshot `live1` returns with the
save-request field equal to the saving index of `live1`; a following dispatch
of `ST_DATA_SAVED` over a snapshot `live2` returns with the field equal to the
saving index of `live2` (-1 when that is -1). Both leave the selected index
and the requesting-status flag as they were. -/
theorem save_round_trip {N : Nat} (B fuel1 fuel2 : Nat)
    (live1 live2 : live_microdrive_data_t N)
    (st : status_screen_t N) (e : List gui_fsm_state_t)
    (hsel : 0 ≤ st.selected ∧ st.selected < (N : Int)) :
    ∃ g1 : gui_t N,
      generate_stimulus N B (fuel1 + 2) ST_REQUEST_DATA_TO_SAVE
        ⟨⟨STATE_GUI_SHOW_STATUS, live1⟩, st, e⟩ = .ok g1 ∧
      g1.fsm.current_state = STATE_GUI_SHOW_STATUS ∧
      g1.status.requesting_data_from_microdrive = live1.microdrive_saving_to_sd ∧
      g1.status.selected = st.selected ∧
      g1.status.requesting_status = st.requesting_status ∧
      ∃ g2 : gui_t N,
        generate_stimulus N B (fuel2 + 2) ST_DATA_SAVED
          { g1 with fsm := { g1.fsm with fsm_data := live2 } } = .ok g2 ∧
        g2.fsm.current_state = STATE_GUI_SHOW_STATUS ∧
        g2.status.requesting_data_from_microdrive = live2.microdrive_saving_to_sd ∧
        (live2.microdrive_saving_to_sd = -1 →
          g2.status.requesting_data_from_microdrive = -1) ∧
        g2.status.selected = st.selected ∧
        g2.status.requesting_status = st.requesting_status := by
  obtain ⟨-, -, -, -, -, -, h7, -⟩ := generate_stimulus_external_eq B fuel1 live1 st e
  obtain ⟨st1, hst1, hsel1, hrs1, hrd1⟩ :=
    gui_sm_show_status_ok B (generate_stimulus N B fuel1)
      ⟨⟨STATE_GUI_SHOW_STATUS, live1⟩,
        { st with requesting_data_from_microdrive := live1.microdrive_saving_to_sd },
        e ++ [STATE_GUI_REQUESTING_DATA_TO_SAVE, STATE_GUI_SHOW_STATUS]⟩ hsel
  refine ⟨_, h7.trans hst1, rfl, hrd1, hsel1, hrs1, ?_⟩
  obtain ⟨-, -, -, -, -, -, -, h8⟩ := generate_stimulus_external_eq B fuel2 live2 st1
    (e ++ [STATE_GUI_REQUESTING_DATA_TO_SAVE, STATE_GUI_SHOW_STATUS])
  have hsel' : 0 ≤ st1.selected ∧ st1.selected < (N : Int) := by
    rw [hsel1]; exact hsel
  obtain ⟨st2, hst2, hsel2, hrs2, hrd2⟩ :=
    gui_sm_show_status_ok B (generate_stimulus N B fuel2)
      ⟨⟨STATE_GUI_SHOW_STATUS, live2⟩,
        { st1 with requesting_data_from_microdrive := live2.microdrive_saving_to_sd },
        e ++ [STATE_GUI_REQUESTING_DATA_TO_SAVE, STATE_GUI_SHOW_STATUS]
          ++ [STATE_GUI_DATA_SAVED, STATE_GUI_SHOW_STATUS]⟩ hsel'
  refine ⟨_, h8.trans hst2, rfl, hrd2, ?_, hsel2.trans hsel1, hrs2.trans hrs1⟩
  intro hk
  rw [hrd2]
  exact hk

theorem save_round_trip_witness :
    (0 ≤ sample_status.selected ∧ sample_status.selected < ((2 : Nat) : Int)) ∧
    sample_live_saving.microdrive_saving_to_sd = 1 ∧
    sample_live.microdrive_saving_to_sd = -1 ∧
    ∃ g1 : gui_t 2,
      generate_stimulus 2 543 2 ST_REQUEST_DATA_TO_SAVE
        ⟨⟨STATE_GUI_SHOW_STATUS, sample_live_saving⟩, sample_status, []⟩ = .ok g1 ∧
      g1.status.requesting_data_from_microdrive = sample_live_saving.microdrive_saving_to_sd ∧
      ∃ g2 : gui_t 2,
        generate_stimulus 2 543 2 ST_DATA_SAVED
          { g1 with fsm := { g1.fsm with fsm_data := sample_live } } = .ok g2 ∧
        g2.status.requesting_data_from_microdrive = sample_live.microdrive_saving_to_sd :=
  ⟨by decide, rfl, rfl,
    (save_round_trip 543 0 0 sample_live_saving sample_live sample_status []
      (by decide)).imp
      (fun _ h => ⟨h.1, h.2.2.1, h.2.2.2.2.2.imp (fun _ h2 => ⟨h2.1, h2.2.2.1⟩)⟩)⟩


/-- C14. At rest with the selected index in range, a dispatch of
`ST_REQUEST_STATUS` (resp. `ST_REQUEST_STATUS_DONE`) returns, and its
projection is exactly the one `gui_sm_show_status` computes from the prior
projection with `requesting_status` set to true (resp. false). The entry
functions `gui_sm_requesting_status` and `gui_sm_requesting_status_done` hand
on the configuration with that one flag replaced and nothing else changed. -/
theorem status_request_frame {N : Nat} (B fuel : Nat) (gen : dispatch_fn N)
    (live : live_microdrive_data_t N) (st : status_screen_t N)
    (e e' : List gui_fsm_state_t)
    (hsel : 0 ≤ st.selected ∧ st.selected < (N : Int)) :
    (∃ g' : gui_t N,
      generate_stimulus N B (fuel + 2) ST_REQUEST_STATUS
        ⟨⟨STATE_GUI_SHOW_STATUS, live⟩, st, e⟩ = .ok g' ∧
      g'.status.requesting_status = true ∧
      Except.map (fun c => c.status)
        (gui_sm_show_status B gen
          ⟨⟨STATE_GUI_SHOW_STATUS, live⟩, { st with requesting_status := true }, e'⟩)
        = .ok g'.status) ∧
    (∃ g' : gui_t N,
      generate_stimulus N B (fuel + 2) ST_REQUEST_STATUS_DONE
        ⟨⟨STATE_GUI_SHOW_STATUS, live⟩, st, e⟩ = .ok g' ∧
      g'.status.requesting_status = false ∧
      Except.map (fun c => c.status)
        (gui_sm_show_status B gen
          ⟨⟨STATE_GUI_SHOW_STATUS, live⟩, { st with requesting_status := false }, e'⟩)
        = .ok g'.status) ∧
    (∀ (d : dispatch_fn N) (g : gui_t N),
      gui_sm_requesting_status d g =
        d FSM_STIMULUS_YES { g with status := { g.status with requesting_status := true } }) ∧
    (∀ (d : dispatch_fn N) (g : gui_t N),
      gui_sm_requesting_status_done d g =
        d FSM_STIMULUS_YES
          { g with status := { g.status with requesting_status := false } }) := by
  obtain ⟨-, -, -, -, h5, h6, -, -⟩ := generate_stimulus_external_eq B fuel live st e
  obtain ⟨k, -, hk⟩ := array_index_in_range st.selected hsel
  refine ⟨?_, ?_, fun _ _ => rfl, fun _ _ => rfl⟩
  · rw [h5]
    have h1 := gui_sm_show_status_eq B (generate_stimulus N B fuel)
      ⟨⟨STATE_GUI_SHOW_STATUS, live⟩, { st with requesting_status := true },
        e ++ [STATE_GUI_REQUESTING_STATUS, STATE_GUI_SHOW_STATUS]⟩ k hk.symm
    have h2 := gui_sm_show_status_eq B gen
      ⟨⟨STATE_GUI_SHOW_STATUS, live⟩, { st with requesting_status := true }, e'⟩ k hk.symm
    refine ⟨_, h1, ?_, ?_⟩
    · cases (live.currently_inserted k).status <;> simp
    · rw [h2]
      rfl
  · rw [h6]
    have h1 := gui_sm_show_status_eq B (generate_stimulus N B fuel)
      ⟨⟨STATE_GUI_SHOW_STATUS, live⟩, { st with requesting_status := false },
        e ++ [STATE_GUI_REQUESTING_STATUS_DONE, STATE_GUI_SHOW_STATUS]⟩ k hk.symm
    have h2 := gui_sm_show_status_eq B gen
      ⟨⟨STATE_GUI_SHOW_STATUS, live⟩, { st with requesting_status := false }, e'⟩ k hk.symm
    refine ⟨_, h1, ?_, ?_⟩
    · cases (live.currently_inserted k).status <;> simp
    · rw [h2]
      rfl

theorem status_request_frame_witness :
    (0 ≤ sample_status.selected ∧ sample_status.selected < ((2 : Nat) : Int)) ∧
    sample_status.requesting_status = false ∧
    ∃ g' : gui_t 2,
      generate_stimulus 2 543 2 ST_REQUEST_STATUS
        ⟨⟨STATE_GUI_SHOW_STATUS, sample_live⟩, sample_status, []⟩ = .ok g' ∧
      g'.status.requesting_status = true ∧
      Except.map (fun c => c.status)
        (gui_sm_show_status 543 (generate_stimulus 2 543 0)
          ⟨⟨STATE_GUI_SHOW_STATUS, sample_live⟩,
            { sample_status with requesting_status := true }, []⟩)
        = .ok g'.status :=
  ⟨by decide, rfl,
    (status_request_frame 543 0 (generate_stimulus 2 543 0) sample_live sample_status [] []
      (by decide)).1⟩


/-! ## Integrity of the tables -/

/-- Over rows none of which is a sentinel and whose keys are pairwise
different, followed by the sentinel, the first-match scan finds `d` for
`(s, x)` exactly when the row `(s, x, d)` is among them. -/
theorem fsm_map_lookup_iff_mem (s : gui_fsm_state_t) (x : gui_fsm_stimulus_t)
    (d : gui_fsm_state_t) :
    ∀ (l : List fsm_map_t), (∀ r ∈ l, r.state ≠ FSM_STATE_NONE) →
      (l.map (fun r => (r.state, r.stimulus))).Nodup →
      (fsm_map_lookup (l ++ [fsm_map_sentinel]) s x = some d ↔
        (⟨s, x, d⟩ : fsm_map_t) ∈ l)
  | [], _, _ => by simp [fsm_map_lookup, fsm_map_sentinel]
  | r :: l, hne, hnd => by
    have hr : r.state ≠ FSM_STATE_NONE := hne r (List.mem_cons_self r l)
    have hne' : ∀ r' ∈ l, r'.state ≠ FSM_STATE_NONE :=
      fun r' h' => hne r' (List.mem_cons_of_mem r h')
    rw [List.map_cons, List.nodup_cons] at hnd
    have ih := fsm_map_lookup_iff_mem s x d l hne' hnd.2
    rw [List.cons_append, fsm_map_lookup, if_neg hr]
    by_cases hkey : r.state = s ∧ r.stimulus = x
    · rw [if_pos hkey]
      constructor
      · intro h
        injection h with h
        have : r = ⟨s, x, d⟩ := by
          cases r
          simp only at hkey h
          rw [hkey.1, hkey.2, h]
        rw [← this]
        exact List.mem_cons_self r l
      · intro h
        rcases List.mem_cons.mp h with h | h
        · rw [← h]
        · exfalso
          apply hnd.1
          rw [hkey.1, hkey.2]
          exact List.mem_map.mpr ⟨⟨s, x, d⟩, h, rfl⟩
    · rw [if_neg hkey, ih]
      constructor
      · intro h
        exact List.mem_cons_of_mem r h
      · intro h
        rcases List.mem_cons.mp h with h | h
        · exfalso
          apply hkey
          rw [← h]
          exact ⟨rfl, rfl⟩
        · exact h

/-- C15. No (state, stimulus) key appears twice among the rows of
`gui_fsm_map` before the sentinel. Hence the first-match scan finds `d` for
`(s, x)` exactly when some row `(s, x, d)` exists, and the scan gives the same
result over every reordering of those rows. -/
theorem gui_fsm_map_no_duplicate_keys :
    ((fsm_map_rows gui_fsm_map).map (fun r => (r.state, r.stimulus))).Nodup ∧
    gui_fsm_map = fsm_map_rows gui_fsm_map ++ [fsm_map_sentinel] ∧
    (fsm_map_rows gui_fsm_map).length = 17 ∧
    (∀ (s : gui_fsm_state_t) (x : gui_fsm_stimulus_t) (d : gui_fsm_state_t),
      fsm_map_lookup gui_fsm_map s x = some d ↔
        ∃ r ∈ fsm_map_rows gui_fsm_map, r.state = s ∧ r.stimulus = x ∧ r.dest_state = d) ∧
    (∀ (rows : List fsm_map_t), rows.Perm (fsm_map_rows gui_fsm_map) →
      ∀ (s : gui_fsm_state_t) (x : gui_fsm_stimulus_t),
        fsm_map_lookup (rows ++ [fsm_map_sentinel]) s x = fsm_map_lookup gui_fsm_map s x) := by
  have hnd : ((fsm_map_rows gui_fsm_map).map (fun r => (r.state, r.stimulus))).Nodup := by
    decide
  have hsplit : gui_fsm_map = fsm_map_rows gui_fsm_map ++ [fsm_map_sentinel] := by
    rfl
  have hne : ∀ r ∈ fsm_map_rows gui_fsm_map, r.state ≠ FSM_STATE_NONE := by
    decide
  have hmem : ∀ (s : gui_fsm_state_t) (x : gui_fsm_stimulus_t) (d : gui_fsm_state_t),
      fsm_map_lookup gui_fsm_map s x = some d ↔
        (⟨s, x, d⟩ : fsm_map_t) ∈ fsm_map_rows gui_fsm_map := by
    intro s x d
    have h := fsm_map_lookup_iff_mem s x d (fsm_map_rows gui_fsm_map) hne hnd
    rw [← hsplit] at h
    exact h
  refine ⟨hnd, hsplit, rfl, ?_, ?_⟩
  · intro s x d
    rw [hmem]
    constructor
    · intro h
      exact ⟨_, h, rfl, rfl, rfl⟩
    · rintro ⟨r, hr, h1, h2, h3⟩
      cases r
      simp only at h1 h2 h3
      subst h1 h2 h3
      exact hr
  · intro rows hperm s x
    have hne' : ∀ r ∈ rows, r.state ≠ FSM_STATE_NONE :=
      fun r h => hne r (hperm.mem_iff.mp h)
    have hnd' : (rows.map (fun r => (r.state, r.stimulus))).Nodup :=
      (hperm.map _).nodup_iff.mpr hnd
    apply Option.ext
    intro d
    rw [Option.mem_def, Option.mem_def, fsm_map_lookup_iff_mem s x d rows hne' hnd', hmem]
    exact hperm.mem_iff

theorem gui_fsm_map_no_duplicate_keys_witness :
    (fsm_map_rows gui_fsm_map).reverse.head? =
      some ⟨STATE_GUI_SELECTING_PREVIOUS_MD, FSM_STIMULUS_YES, STATE_GUI_SHOW_STATUS⟩ ∧
    fsm_map_lookup ((fsm_map_rows gui_fsm_map).reverse ++ [fsm_map_sentinel])
        STATE_GUI_INIT FSM_STIMULUS_YES
      = fsm_map_lookup gui_fsm_map STATE_GUI_INIT FSM_STIMULUS_YES :=
  ⟨rfl,
    gui_fsm_map_no_duplicate_keys.2.2.2.2 (fsm_map_rows gui_fsm_map).reverse
      (List.reverse_perm _) STATE_GUI_INIT FSM_STIMULUS_YES⟩


/-- C16. The states reachable from `STATE_GUI_INIT` along rows of
`gui_fsm_map` are the ten GUI states. Each of them, and each state that is the
target of a row of `gui_fsm_map`, has exactly one row in `binding`, that row
holds a function, and the binding lookup finds it; so after every table hit
the binding lookup succeeds. -/
theorem binding_for_every_target {N : Nat} (B : Nat) :
    (∀ s : gui_fsm_state_t, map_reachable s ↔
      s ∈ [ STATE_GUI_INIT, STATE_GUI_SHOW_STATUS, STATE_GUI_REQUESTING_STATUS,
            STATE_GUI_REQUESTING_STATUS_DONE, STATE_GUI_REQUESTING_DATA_TO_SAVE,
            STATE_GUI_DATA_SAVED, STATE_GUI_INSERTING_MDR, STATE_GUI_INSERTED_MDR,
            STATE_GUI_SELECTING_NEXT_MD, STATE_GUI_SELECTING_PREVIOUS_MD ]) ∧
    (∀ s : gui_fsm_state_t,
      (map_reachable s ∨ ∃ r ∈ fsm_map_rows gui_fsm_map, r.dest_state = s) →
      (binding N B).countP (fun r => decide (r.state = s)) = 1 ∧
      (∀ r ∈ binding N B, r.state = s → r.entry_fn.isSome = true) ∧
      (fsm_binding_lookup (query_gui_fsm_binding N B) s).isSome = true) ∧
    (∀ (s : gui_fsm_state_t) (x : gui_fsm_stimulus_t) (d : gui_fsm_state_t),
      fsm_map_lookup query_gui_fsm_map s x = some d →
      (fsm_binding_lookup (query_gui_fsm_binding N B) d).isSome = true) := by
  have htarget : ∀ r ∈ fsm_map_rows gui_fsm_map, r.dest_state ≠ FSM_STATE_NONE := by
    decide
  have hreach : ∀ s : gui_fsm_state_t, map_reachable s → s ≠ FSM_STATE_NONE := by
    intro s h
    induction h with
    | initial => decide
    | follow row hrow _ _ => exact htarget row hrow
  have hshow : map_reachable STATE_GUI_SHOW_STATUS :=
    map_reachable.follow ⟨STATE_GUI_INIT, FSM_STIMULUS_YES, STATE_GUI_SHOW_STATUS⟩
      (by decide) map_reachable.initial
  have hbound : ∀ s : gui_fsm_state_t, s ≠ FSM_STATE_NONE →
      (binding N B).countP (fun r => decide (r.state = s)) = 1 ∧
      (∀ r ∈ binding N B, r.state = s → r.entry_fn.isSome = true) ∧
      (fsm_binding_lookup (query_gui_fsm_binding N B) s).isSome = true := by
    intro s hs
    cases s
    case FSM_STATE_NONE => exact absurd rfl hs
    all_goals
      refine ⟨rfl, ?_, rfl⟩
      intro r hr hrs
      simp only [binding, List.mem_cons, List.mem_singleton, List.not_mem_nil,
        or_false] at hr
      rcases hr with hr | hr | hr | hr | hr | hr | hr | hr | hr | hr | hr <;>
        subst hr <;> first | rfl | cases hrs
  refine ⟨?_, ?_, ?_⟩
  · intro s
    constructor
    · intro h
      have := hreach s h
      cases s <;> simp at this ⊢
    · intro h
      simp only [List.mem_cons, List.mem_singleton, List.not_mem_nil, or_false] at h
      rcases h with h | h | h | h | h | h | h | h | h | h <;> subst h
      · exact map_reachable.initial
      · exact hshow
      · exact map_reachable.follow
          ⟨STATE_GUI_SHOW_STATUS, ST_REQUEST_STATUS, STATE_GUI_REQUESTING_STATUS⟩
          (by decide) hshow
      · exact map_reachable.follow
          ⟨STATE_GUI_SHOW_STATUS, ST_REQUEST_STATUS_DONE, STATE_GUI_REQUESTING_STATUS_DONE⟩
          (by decide) hshow
      · exact map_reachable.follow
          ⟨STATE_GUI_SHOW_STATUS, ST_REQUEST_DATA_TO_SAVE, STATE_GUI_REQUESTING_DATA_TO_SAVE⟩
          (by decide) hshow
      · exact map_reachable.follow
          ⟨STATE_GUI_SHOW_STATUS, ST_DATA_SAVED, STATE_GUI_DATA_SAVED⟩ (by decide) hshow
      · exact map_reachable.follow
          ⟨STATE_GUI_SHOW_STATUS, ST_MDR_INSERTING, STATE_GUI_INSERTING_MDR⟩
          (by decide) hshow
      · exact map_reachable.follow
          ⟨STATE_GUI_SHOW_STATUS, ST_MDR_INSERTED, STATE_GUI_INSERTED_MDR⟩
          (by decide) hshow
      · exact map_reachable.follow
          ⟨STATE_GUI_SHOW_STATUS, ST_ROTATE_CCW, STATE_GUI_SELECTING_NEXT_MD⟩
          (by decide) hshow
      · exact map_reachable.follow
          ⟨STATE_GUI_SHOW_STATUS, ST_ROTATE_CW, STATE_GUI_SELECTING_PREVIOUS_MD⟩
          (by decide) hshow
  · intro s h
    apply hbound
    rcases h with h | ⟨r, hr, hrs⟩
    · exact hreach s h
    · rw [← hrs]
      exact htarget r hr
  · intro s x d h
    apply (hbound d _).2.2
    intro hd
    subst hd
    cases s <;> cases x <;> simp [query_gui_fsm_map, fsm_map_lookup, gui_fsm_map] at h

theorem binding_for_every_target_witness :
    fsm_map_lookup query_gui_fsm_map STATE_GUI_SHOW_STATUS ST_ROTATE_CW
      = some STATE_GUI_SELECTING_PREVIOUS_MD ∧
    (fsm_binding_lookup (query_gui_fsm_binding 2 543)
      STATE_GUI_SELECTING_PREVIOUS_MD).isSome = true :=
  ⟨rfl,
    (@binding_for_every_target 2 543).2.2 STATE_GUI_SHOW_STATUS ST_ROTATE_CW
      STATE_GUI_SELECTING_PREVIOUS_MD rfl⟩


/-! ## Bounded dispatch -/

/-- The result of `gui_sm_show_status` is a configuration that differs in
`status` only, or the out-of-bounds error. -/
theorem gui_sm_show_status_cases {N : Nat} (B : Nat) (gen : dispatch_fn N) (g : gui_t N) :
    (∃ st : status_screen_t N, gui_sm_show_status B gen g = .ok { g with status := st }) ∨
    gui_sm_show_status B gen g = .error .index_out_of_bounds := by
  by_cases hr : 0 ≤ g.status.selected ∧ g.status.selected < (N : Int)
  · obtain ⟨st, hst, -⟩ := gui_sm_show_status_ok B gen g hr
    exact Or.inl ⟨st, hst⟩
  · right
    have hnone : array_index N g.status.selected = none := by
      unfold array_index
      rw [dif_neg hr]
    unfold gui_sm_show_status
    simp only [hnone]

/-- Shape of a dispatch: either it is a table miss and returns the
configuration as it is, or it makes one or two transitions, recorded in
`entered`, and ends with one run of `gui_sm_show_status`. Fuel beyond 2 is
never used. -/
theorem generate_stimulus_shape {N : Nat} (B : Nat) (x : gui_fsm_stimulus_t) (g : gui_t N) :
    (∀ f : Nat, generate_stimulus N B (f + 2) x g = .ok g) ∨
    (∃ (c : gui_t N) (l : List gui_fsm_state_t),
      l.length ≤ 2 ∧ c.entered = g.entered ++ l ∧
      ((0 ≤ g.status.selected ∧ g.status.selected < (N : Int)) →
        (0 ≤ c.status.selected ∧ c.status.selected < (N : Int))) ∧
      ∀ f : Nat, generate_stimulus N B (f + 2) x g =
        gui_sm_show_status B (generate_stimulus N B 0) c) := by
  obtain ⟨⟨s, live⟩, st, e⟩ := g
  rcases gui_fsm_map_kinds s x with h | ⟨hx, hs⟩ | ⟨hs, hx1, hx2⟩
  · left
    intro f
    exact generate_stimulus_miss B (f + 1) x ⟨⟨s, live⟩, st, e⟩ h
  · right
    subst hx
    refine ⟨⟨⟨STATE_GUI_SHOW_STATUS, live⟩, st, e ++ [STATE_GUI_SHOW_STATUS]⟩,
      [STATE_GUI_SHOW_STATUS], by decide, rfl, fun h => h, ?_⟩
    intro f
    exact generate_stimulus_yes B (f + 1) s live st e hs
  · right
    subst hs
    have hrot1 : (0 ≤ st.selected ∧ st.selected < (N : Int)) →
        (0 ≤ (if st.selected + 1 = (N : Int) then 0 else st.selected + 1) ∧
          (if st.selected + 1 = (N : Int) then 0 else st.selected + 1) < (N : Int)) := by
      intro h
      split <;> omega
    have hrot2 : (0 ≤ st.selected ∧ st.selected < (N : Int)) →
        (0 ≤ (if st.selected = 0 then (N : Int) - 1 else st.selected - 1) ∧
          (if st.selected = 0 then (N : Int) - 1 else st.selected - 1) < (N : Int)) := by
      intro h
      split <;> omega
    cases x
    case FSM_STIMULUS_NONE => exact absurd rfl hx2
    case FSM_STIMULUS_YES => exact absurd rfl hx1
    case ST_MDR_INSERTING =>
      refine ⟨_, [STATE_GUI_INSERTING_MDR, STATE_GUI_SHOW_STATUS], by decide, ?_, ?_,
        fun f => (generate_stimulus_external_eq B f live st e).1⟩
      · rfl
      · exact fun h => h
    case ST_MDR_INSERTED =>
      refine ⟨_, [STATE_GUI_INSERTED_MDR, STATE_GUI_SHOW_STATUS], by decide, ?_, ?_,
        fun f => (generate_stimulus_external_eq B f live st e).2.1⟩
      · rfl
      · exact fun h => h
    case ST_ROTATE_CCW =>
      refine ⟨_, [STATE_GUI_SELECTING_NEXT_MD, STATE_GUI_SHOW_STATUS], by decide, ?_, ?_,
        fun f => (generate_stimulus_external_eq B f live st e).2.2.1⟩
      · rfl
      · exact hrot1
    case ST_ROTATE_CW =>
      refine ⟨_, [STATE_GUI_SELECTING_PREVIOUS_MD, STATE_GUI_SHOW_STATUS], by decide, ?_, ?_,
        fun f => (generate_stimulus_external_eq B f live st e).2.2.2.1⟩
      · rfl
      · exact hrot2
    case ST_REQUEST_STATUS =>
      refine ⟨_, [STATE_GUI_REQUESTING_STATUS, STATE_GUI_SHOW_STATUS], by decide, ?_, ?_,
        fun f => (generate_stimulus_external_eq B f live st e).2.2.2.2.1⟩
      · rfl
      · exact fun h => h
    case ST_REQUEST_STATUS_DONE =>
      refine ⟨_, [STATE_GUI_REQUESTING_STATUS_DONE, STATE_GUI_SHOW_STATUS], by decide, ?_, ?_,
        fun f => (generate_stimulus_external_eq B f live st e).2.2.2.2.2.1⟩
      · rfl
      · exact fun h => h
    case ST_REQUEST_DATA_TO_SAVE =>
      refine ⟨_, [STATE_GUI_REQUESTING_DATA_TO_SAVE, STATE_GUI_SHOW_STATUS], by decide, ?_, ?_,
        fun f => (generate_stimulus_external_eq B f live st e).2.2.2.2.2.2.1⟩
      · rfl
      · exact fun h => h
    case ST_DATA_SAVED =>
      refine ⟨_, [STATE_GUI_DATA_SAVED, STATE_GUI_SHOW_STATUS], by decide, ?_, ?_,
        fun f => (generate_stimulus_external_eq B f live st e).2.2.2.2.2.2.2⟩
      · rfl
      · exact fun h => h


/-- C17. One call of the dispatch makes at most two table transitions and
returns: for every state, stimulus, snapshot and projection the result with
any fuel of 2 or more equals the result with fuel 2, it is never the
out-of-fuel or missing-binding error, the history of entered states grows by
at most two, and with the selected index in range it is a configuration. Boot
with at least one drive returns after entering `STATE_GUI_INIT` and
`STATE_GUI_SHOW_STATUS`. `gui_sm_show_status` never calls the dispatcher, and
each of the other nine entry functions calls it exactly once, with
`FSM_STIMULUS_YES`, as its result. -/
theorem generate_stimulus_bounded {N : Nat} (B fuel : Nat) (x : gui_fsm_stimulus_t)
    (g : gui_t N) :
    generate_stimulus N B (fuel + 2) x g = generate_stimulus N B 2 x g ∧
    generate_stimulus N B (fuel + 2) x g ≠ .error .out_of_fuel ∧
    generate_stimulus N B (fuel + 2) x g ≠ .error .no_binding ∧
    (∀ g' : gui_t N, generate_stimulus N B (fuel + 2) x g = .ok g' →
      ∃ l : List gui_fsm_state_t, g'.entered = g.entered ++ l ∧ l.length ≤ 2) ∧
    ((0 ≤ g.status.selected ∧ g.status.selected < (N : Int)) →
      ∃ g' : gui_t N, generate_stimulus N B (fuel + 2) x g = .ok g') ∧
    (∀ (live : live_microdrive_data_t N) (st : status_screen_t N), 0 < N →
      ∃ g' : gui_t N,
        fsm_init N B (fuel + 1) query_gui_fsm_initial_state live st = .ok g' ∧
        g'.entered = [STATE_GUI_INIT, STATE_GUI_SHOW_STATUS]) ∧
    (∀ (gen1 gen2 : dispatch_fn N) (c : gui_t N),
      gui_sm_show_status B gen1 c = gui_sm_show_status B gen2 c) ∧
    (∀ entry : entry_fn N,
      entry ∈ [ gui_sm_init, gui_sm_requesting_status, gui_sm_requesting_status_done,
                gui_sm_requesting_data_to_save, gui_sm_data_saved, gui_sm_inserting_mdr,
                gui_sm_inserted_mdr, gui_sm_selecting_next_md,
                gui_sm_selecting_previous_md ] →
      ∃ update : gui_t N → gui_t N,
        ∀ (gen : dispatch_fn N) (c : gui_t N),
          entry gen c = gen FSM_STIMULUS_YES (update c)) := by
  refine ⟨?_, ?_, ?_, ?_, ?_, ?_, fun _ _ _ => rfl, ?_⟩
  · rcases generate_stimulus_shape B x g with h | ⟨c, l, -, -, -, h⟩
    · exact (h fuel).trans (h 0).symm
    · exact (h fuel).trans (h 0).symm
  · rcases generate_stimulus_shape B x g with h | ⟨c, l, -, -, -, h⟩
    · rw [h fuel]
      intro hc
      cases hc
    · rw [h fuel]
      rcases gui_sm_show_status_cases B (generate_stimulus N B 0) c with ⟨st, hst⟩ | herr
      · rw [hst]
        intro hc
        cases hc
      · rw [herr]
        intro hc
        injection hc with hc
        cases hc
  · rcases generate_stimulus_shape B x g with h | ⟨c, l, -, -, -, h⟩
    · rw [h fuel]
      intro hc
      cases hc
    · rw [h fuel]
      rcases gui_sm_show_status_cases B (generate_stimulus N B 0) c with ⟨st, hst⟩ | herr
      · rw [hst]
        intro hc
        cases hc
      · rw [herr]
        intro hc
        injection hc with hc
        cases hc
  · intro g' hg'
    rcases generate_stimulus_shape B x g with h | ⟨c, l, hl, hc, -, h⟩
    · rw [h fuel] at hg'
      injection hg' with hg'
      subst hg'
      exact ⟨[], (List.append_nil _).symm, by decide⟩
    · rw [h fuel] at hg'
      obtain ⟨-, -, he, -⟩ := gui_sm_show_status_inv _ _ _ _ hg'
      exact ⟨l, he.trans hc, hl⟩
  · intro hr
    rcases generate_stimulus_shape B x g with h | ⟨c, l, -, -, hrange, h⟩
    · exact ⟨g, h fuel⟩
    · obtain ⟨st, hst, -⟩ :=
        gui_sm_show_status_ok B (generate_stimulus N B 0) c (hrange hr)
      exact ⟨_, (h fuel).trans hst⟩
  · intro live st hN
    obtain ⟨g', hg', -, -, -, he⟩ := (fsm_init_ok B fuel hN live st).2
    exact ⟨g', hg', he⟩
  · intro entry hentry
    simp only [List.mem_cons, List.mem_singleton, List.not_mem_nil, or_false] at hentry
    rcases hentry with h | h | h | h | h | h | h | h | h <;> subst h
    · exact ⟨fun c => { c with status :=
        { c.status with selected := 0, requesting_data_from_microdrive := -1 } },
        fun _ _ => rfl⟩
    · exact ⟨fun c => { c with status := { c.status with requesting_status := true } },
        fun _ _ => rfl⟩
    · exact ⟨fun c => { c with status := { c.status with requesting_status := false } },
        fun _ _ => rfl⟩
    · exact ⟨fun c => { c with status := { c.status with
          requesting_data_from_microdrive := c.fsm.fsm_data.microdrive_saving_to_sd } },
        fun _ _ => rfl⟩
    · exact ⟨fun c => { c with status := { c.status with
          requesting_data_from_microdrive := c.fsm.fsm_data.microdrive_saving_to_sd } },
        fun _ _ => rfl⟩
    · exact ⟨fun c => c, fun _ _ => rfl⟩
    · exact ⟨fun c => c, fun _ _ => rfl⟩
    · exact ⟨fun c => { c with status := { c.status with
          selected := if c.status.selected + 1 = (N : Int) then 0
            else c.status.selected + 1 } },
        fun _ _ => rfl⟩
    · exact ⟨fun c => { c with status := { c.status with
          selected := if c.status.selected = 0 then (N : Int) - 1
            else c.status.selected - 1 } },
        fun _ _ => rfl⟩

theorem generate_stimulus_bounded_witness :
    (0 ≤ sample_gui.status.selected ∧ sample_gui.status.selected < ((2 : Nat) : Int)) ∧
    (∃ g' : gui_t 2, generate_stimulus 2 543 (5 + 2) ST_ROTATE_CW sample_gui = .ok g') ∧
    generate_stimulus 2 543 (5 + 2) ST_ROTATE_CW sample_gui
      = generate_stimulus 2 543 2 ST_ROTATE_CW sample_gui :=
  ⟨by decide,
    (generate_stimulus_bounded 543 5 ST_ROTATE_CW sample_gui).2.2.2.2.1 (by decide),
    (generate_stimulus_bounded 543 5 ST_ROTATE_CW sample_gui).1⟩


/-! ## Selection steps as permutations of the index -/

/-- On an in-range index the increment with wraparound is the successor
modulo the number of drives. -/
theorem next_index_eq_emod (N : Nat) (i : Int) (h : 0 ≤ i ∧ i < (N : Int)) :
    (if i + 1 = (N : Int) then (0 : Int) else i + 1) = (i + 1) % (N : Int) := by
  split
  · next heq => rw [heq, Int.emod_self]
  · next hne => rw [Int.emod_eq_of_lt (by omega) (by omega)]

/-- Running `gui_sm_selecting_next_md` `n` times from an in-range index `i`
hands on the index `(i + n) mod N` and changes nothing else. -/
theorem run_next_iterate {N : Nat} (g : gui_t N)
    (h : 0 ≤ g.status.selected ∧ g.status.selected < (N : Int)) :
    ∀ n : Nat, (run_entry gui_sm_selecting_next_md)^[n] g =
      { g with status :=
          { g.status with selected := (g.status.selected + (n : Int)) % (N : Int) } }
  | 0 => by
    have h0 : (g.status.selected + ((0 : Nat) : Int)) % (N : Int) = g.status.selected := by
      rw [Int.emod_eq_of_lt (by omega) (by omega)]
      omega
    rw [h0]
    rfl
  | n + 1 => by
    have hpos : (0 : Int) < (N : Int) := by omega
    have hin : 0 ≤ (g.status.selected + (n : Int)) % (N : Int) ∧
        (g.status.selected + (n : Int)) % (N : Int) < (N : Int) :=
      ⟨Int.emod_nonneg _ (by omega), Int.emod_lt_of_pos _ hpos⟩
    rw [Function.iterate_succ_apply', run_next_iterate g h n]
    show ({ g with status := { g.status with
      selected := if (g.status.selected + (n : Int)) % (N : Int) + 1 = (N : Int) then 0
        else (g.status.selected + (n : Int)) % (N : Int) + 1 } } : gui_t N) = _
    rw [next_index_eq_emod N _ hin, Int.emod_add_emod]
    have hcast : g.status.selected + (n : Int) + 1 = g.status.selected + ((n + 1 : Nat) : Int) := by
      push_cast
      ring
    rw [hcast]

/-- C18. On a selected index `i` with `0 ≤ i < N` the two selection steps are
mutually inverse: `gui_sm_selecting_next_md` followed by
`gui_sm_selecting_previous_md`, and the two in the opposite order, hand on the
configuration they started from, and so does `gui_sm_selecting_next_md`
repeated `N` times; in each case the selected index is `i` again. Here
`run_entry f g` is the configuration `f` hands to the dispatcher. -/
theorem selecting_mutually_inverse {N : Nat} (g : gui_t N)
    (h : 0 ≤ g.status.selected ∧ g.status.selected < (N : Int)) :
    (∀ gen : dispatch_fn N,
      gui_sm_selecting_next_md gen g
        = gen FSM_STIMULUS_YES (run_entry gui_sm_selecting_next_md g) ∧
      gui_sm_selecting_previous_md gen g
        = gen FSM_STIMULUS_YES (run_entry gui_sm_selecting_previous_md g)) ∧
    run_entry gui_sm_selecting_previous_md (run_entry gui_sm_selecting_next_md g) = g ∧
    run_entry gui_sm_selecting_next_md (run_entry gui_sm_selecting_previous_md g) = g ∧
    (run_entry gui_sm_selecting_next_md)^[N] g = g ∧
    (run_entry gui_sm_selecting_previous_md
      (run_entry gui_sm_selecting_next_md g)).status.selected = g.status.selected ∧
    (run_entry gui_sm_selecting_next_md
      (run_entry gui_sm_selecting_previous_md g)).status.selected = g.status.selected ∧
    ((run_entry gui_sm_selecting_next_md)^[N] g).status.selected = g.status.selected := by
  have h1 : run_entry gui_sm_selecting_previous_md
      (run_entry gui_sm_selecting_next_md g) = g := by
    obtain ⟨fsm, ⟨sel, md, ins, name, nb, wp, rs, rd⟩, e⟩ := g
    simp only at h
    have hback : (if (if sel + 1 = (N : Int) then 0 else sel + 1) = 0 then (N : Int) - 1
        else (if sel + 1 = (N : Int) then 0 else sel + 1) - 1) = sel := by
      split <;> split <;> omega
    simp only [run_entry, gui_sm_selecting_next_md, gui_sm_selecting_previous_md, hback]
  have h2 : run_entry gui_sm_selecting_next_md
      (run_entry gui_sm_selecting_previous_md g) = g := by
    obtain ⟨fsm, ⟨sel, md, ins, name, nb, wp, rs, rd⟩, e⟩ := g
    simp only at h
    have hforth : (if (if sel = 0 then (N : Int) - 1 else sel - 1) + 1 = (N : Int) then 0
        else (if sel = 0 then (N : Int) - 1 else sel - 1) + 1) = sel := by
      split <;> split <;> omega
    simp only [run_entry, gui_sm_selecting_next_md, gui_sm_selecting_previous_md, hforth]
  have h3 : (run_entry gui_sm_selecting_next_md)^[N] g = g := by
    rw [run_next_iterate g h N, Int.add_emod_self, Int.emod_eq_of_lt h.1 h.2]
  exact ⟨fun _ => ⟨rfl, rfl⟩, h1, h2, h3, by rw [h1], by rw [h2], by rw [h3]⟩

theorem selecting_mutually_inverse_witness :
    (0 ≤ sample_gui.status.selected ∧ sample_gui.status.selected < ((2 : Nat) : Int)) ∧
    (run_entry gui_sm_selecting_next_md sample_gui).status.selected = 1 ∧
    (run_entry gui_sm_selecting_previous_md
      (run_entry gui_sm_selecting_next_md sample_gui)).status.selected
      = sample_gui.status.selected ∧
    ((run_entry gui_sm_selecting_next_md)^[2] sample_gui).status.selected
      = sample_gui.status.selected :=
  ⟨by decide, rfl,
    (selecting_mutually_inverse sample_gui (by decide)).2.2.2.2.1,
    (selecting_mutually_inverse sample_gui (by decide)).2.2.2.2.2.2⟩

/-! ## Rebuilding the projection twice -/

/-- C19. With the selected index in range (the position `k`),
`gui_sm_show_status` run again on its own result over the same snapshot
returns that result unchanged, and a run never changes the selected index,
the requesting-status flag or the save-request field. -/
theorem show_status_idempotent {N : Nat} (B : Nat) (gen1 gen2 : dispatch_fn N)
    (g : gui_t N) (k : Fin N) (hsel : g.status.selected = (k.val : Int)) :
    ∃ g1 : gui_t N,
      gui_sm_show_status B gen1 g = .ok g1 ∧
      gui_sm_show_status B gen2 g1 = .ok g1 ∧
      g1.fsm = g.fsm ∧
      g1.status.selected = g.status.selected ∧
      g1.status.requesting_status = g.status.requesting_status ∧
      g1.status.requesting_data_from_microdrive
        = g.status.requesting_data_from_microdrive := by
  have h1 := gui_sm_show_status_eq B gen1 g k hsel
  refine ⟨_, h1, ?_, rfl, ?_, ?_, ?_⟩
  · rw [gui_sm_show_status_eq B gen2 _ k
      (by cases (g.fsm.fsm_data.currently_inserted k).status <;> simpa using hsel)]
    cases hst : (g.fsm.fsm_data.currently_inserted k).status <;> simp [hst]
  · cases (g.fsm.fsm_data.currently_inserted k).status <;> simp
  · cases (g.fsm.fsm_data.currently_inserted k).status <;> simp
  · cases (g.fsm.fsm_data.currently_inserted k).status <;> simp

theorem show_status_idempotent_witness :
    stale_status_a.selected = (((1 : Fin 2).val : Nat) : Int) ∧
    ∃ g1 : gui_t 2,
      gui_sm_show_status 543 (generate_stimulus 2 543 0)
        ⟨⟨STATE_GUI_SHOW_STATUS, sample_live⟩, stale_status_a, []⟩ = .ok g1 ∧
      gui_sm_show_status 543 (generate_stimulus 2 543 0) g1 = .ok g1 :=
  ⟨rfl,
    (show_status_idempotent 543 (generate_stimulus 2 543 0) (generate_stimulus 2 543 0)
      ⟨⟨STATE_GUI_SHOW_STATUS, sample_live⟩, stale_status_a, []⟩ 1 rfl).imp
      (fun _ h => ⟨h.1, h.2.1⟩)⟩


end GuiFsm
